import Mathlib

/-!
# Product listing viewer (`script.js`): search, sort and pagination

A shallow embedding of the view state of `script.js` and of the functions that
change or read it, followed by the properties proved about them.

Modelling conventions.

* The five module-level variables (`allProducts`, `filteredProducts`,
  `currentPage`, `pageSize`, `currentSort`) are the fields of `State`; every
  handler is a function from the state before the call to the state after it.
* Numbers: `currentPage` and `pageSize` only ever hold integers
  (`parseInt`, `++`, `--`, the literal `1`), so they are `Int`.  The quotient
  `filteredProducts.length / pageSize` is taken exactly; for array lengths
  (below `2 ^ 32`) the double-precision quotient has the same ceiling.
  A zero divisor gives `Infinity` or `NaN`, kept by `JSNum`.  The non-numeric
  result of `parseInt` (`NaN`) and the negative zero of `parseInt("-0")` are
  outside the model: `changePageSize` takes the integer that was read.
* Products carry an integer `price` and a string `title`, as the catalog the
  page fetches does.
* Arrays are lists, passed by value, in `State`, the model most properties
  are stated on.  `RefState` is the same program with arrays as objects of a
  heap and the two variables as references, so that the in-place `sort` is a
  write to an array; `runRef_refines` shows that every run acts on the
  contents exactly as in `State`, because the two variables never refer to
  one array.
* `Array.prototype.sort` is stable (ECMAScript 2019); it is modelled by the
  stable insertion sort `jsSort`.
* `toLowerCase` and `localeCompare` are engine functions (Unicode tables,
  locale data); they are the two fields of `Host`, a parameter of the handlers
  that use them.
* DOM output is reduced to its data: `renderTable` yields the rows shown,
  `updatePaginationInfo` the texts and button flags.
-/

namespace ProductManager

/-! ## Data model -/

/-- One record of the fetched catalog, with the fields `script.js` reads. -/
structure Product where
  id : Int
  title : String
  price : Int
  category : Option String
  description : String
  images : List String
deriving DecidableEq, Repr

/-- The module-level variables of `script.js` (lines 5-9). -/
structure State where
  allProducts : List Product
  filteredProducts : List Product
  currentPage : Int
  pageSize : Int
  currentSort : Option String
deriving DecidableEq, Repr

/-- Values of the variables when the script has just been evaluated. -/
def initialState : State :=
  { allProducts := [], filteredProducts := [], currentPage := 1, pageSize := 10,
    currentSort := none }

/-- Engine-provided string functions used by the handlers. -/
structure Host where
  toLowerCase : String → String
  localeCompare : String → String → Int

/-- The numbers `Math.ceil(length / pageSize)` can produce: not-a-number (`0 / 0`),
positive infinity (`n / 0` with `n > 0`) or an integer. -/
inductive JSNum where
  | nan
  | posInf
  | int (n : Int)
deriving DecidableEq, Repr

/-! ## Built-ins -/

/-- The code points `String.prototype.trim` strips: ECMAScript WhiteSpace and
LineTerminator. -/
def isJsWhiteSpace (c : Char) : Bool :=
  c.val = 0x09 || c.val = 0x0A || c.val = 0x0B || c.val = 0x0C || c.val = 0x0D ||
  c.val = 0x20 || c.val = 0xA0 || c.val = 0x1680 ||
  (0x2000 ≤ c.val && c.val ≤ 0x200A) ||
  c.val = 0x2028 || c.val = 0x2029 || c.val = 0x202F || c.val = 0x205F ||
  c.val = 0x3000 || c.val = 0xFEFF

/-- The method `String.prototype.trim`: drop white space at both ends. -/
def jsTrim (s : String) : String :=
  String.mk ((s.data.dropWhile isJsWhiteSpace).reverse.dropWhile isJsWhiteSpace).reverse

/-- The method `String.prototype.includes`: `needle` occurs in `hay` as a contiguous run. -/
def includes (hay needle : String) : Bool :=
  decide (needle.data <:+: hay.data)

/-- Truthiness of a value that is `null` or a string: only `null` and `""` are falsy. -/
def truthy : Option String → Bool
  | none => false
  | some t => t != ""

/-- The method `Array.prototype.slice(start, stop)` for integer arguments: a negative index
counts from the end, both are clamped to `[0, length]`. -/
def jsSlice {α : Type} (xs : List α) (start stop : Int) : List α :=
  let len : Int := xs.length
  let k : Int := if start < 0 then max (len + start) 0 else min start len
  let fin : Int := if stop < 0 then max (len + stop) 0 else min stop len
  (xs.drop k.toNat).take (fin - k).toNat

/-- The method `Array.prototype.sort(cmp)`, a stable sort: `a` is placed before `b` when
`cmp a b ≤ 0`, and elements that compare equal keep their order. -/
def jsSort {α : Type} (cmp : α → α → Int) (xs : List α) : List α :=
  xs.insertionSort (fun a b => cmp a b ≤ 0)

/-- The expression `Math.ceil(n / d)` for an array length `n` and an integer `d`.  The ceiling of
the quotient is computed as minus the floor of `-n / d` (`Int.fdiv` rounds down);
`mathCeilDiv_eq_ceil` shows it is the ceiling of the rational quotient. -/
def mathCeilDiv (n : Nat) (d : Int) : JSNum :=
  if d = 0 then (if n = 0 then JSNum.nan else JSNum.posInf)
  else JSNum.int (-(Int.fdiv (-(n : Int)) d))

/-- The comparison `c < t` for an integer `c`. -/
def JSNum.gtInt (t : JSNum) (c : Int) : Bool :=
  match t with
  | JSNum.nan => false
  | JSNum.posInf => true
  | JSNum.int n => decide (c < n)

/-- The comparison `c >= t` for an integer `c`. -/
def JSNum.leInt (t : JSNum) (c : Int) : Bool :=
  match t with
  | JSNum.nan => false
  | JSNum.posInf => false
  | JSNum.int n => decide (c ≥ n)

/-- Number-to-string conversion inside a template literal. -/
def JSNum.render : JSNum → String
  | JSNum.nan => "NaN"
  | JSNum.posInf => "Infinity"
  | JSNum.int n => toString n

/-! ## Rendering (`renderTable`, `updatePaginationInfo`) -/

/-- The constant `pageProducts` of `renderTable` (lines 65-67). -/
def pageProducts (s : State) : List Product :=
  let startIndex := (s.currentPage - 1) * s.pageSize
  let endIndex := startIndex + s.pageSize
  jsSlice s.filteredProducts startIndex endIndex

/-- What `renderTable` puts into the table body. -/
inductive TableBody where
  | noData
  | rows (products : List Product)
deriving DecidableEq, Repr

/-- The function `renderTable` (lines 64-106): the "no products found" row when the page slice
is empty, one row per product of the slice otherwise. -/
def renderTable (s : State) : TableBody :=
  if (pageProducts s).length = 0 then TableBody.noData
  else TableBody.rows (pageProducts s)

/-- The constant `totalPages` of `updatePaginationInfo` and `goToNextPage` (lines 110, 196). -/
def totalPages (s : State) : JSNum :=
  mathCeilDiv s.filteredProducts.length s.pageSize

/-- What `updatePaginationInfo` writes: the numbers it computes, the two texts and the two
button flags. -/
structure PaginationInfo where
  totalPages : JSNum
  startItem : Int
  endItem : Int
  total : Nat
  pageInfo : String
  productCount : String
  prevDisabled : Bool
  nextDisabled : Bool
deriving DecidableEq, Repr

/-- The function `updatePaginationInfo` (lines 109-120). -/
def updatePaginationInfo (s : State) : PaginationInfo :=
  let totalPages := mathCeilDiv s.filteredProducts.length s.pageSize
  let startItem := (s.currentPage - 1) * s.pageSize + 1
  let endItem := min (s.currentPage * s.pageSize) (s.filteredProducts.length : Int)
  { totalPages := totalPages
    startItem := startItem
    endItem := endItem
    total := s.filteredProducts.length
    pageInfo := "Trang " ++ toString s.currentPage ++ " / " ++ totalPages.render
    productCount := "Hiển thị " ++ toString startItem ++ "-" ++ toString endItem ++
      " trong tổng số " ++ toString s.filteredProducts.length ++ " sản phẩm"
    prevDisabled := decide (s.currentPage = 1)
    nextDisabled := totalPages.leInt s.currentPage }

/-! ## Handlers -/

/-- The function `applySorting` (lines 145-169): record the sort type, sort `filteredProducts`
in place when the type is one of the four known ones, go back to page 1. -/
def applySorting (h : Host) (s : State) (sortType : Option String) : State :=
  let sorted :=
    if sortType = some "priceAsc" then
      jsSort (fun a b => a.price - b.price) s.filteredProducts
    else if sortType = some "priceDesc" then
      jsSort (fun a b => b.price - a.price) s.filteredProducts
    else if sortType = some "nameAsc" then
      jsSort (fun a b => h.localeCompare a.title b.title) s.filteredProducts
    else if sortType = some "nameDesc" then
      jsSort (fun a b => h.localeCompare b.title a.title) s.filteredProducts
    else s.filteredProducts
  { s with currentSort := sortType, filteredProducts := sorted, currentPage := 1 }

/-- The function `handleSearch` (lines 123-142); `input` is `searchInput.value`. -/
def handleSearch (h : Host) (s : State) (input : String) : State :=
  let searchTerm := jsTrim (h.toLowerCase input)
  let filtered :=
    if searchTerm = "" then s.allProducts
    else s.allProducts.filter (fun product => includes (h.toLowerCase product.title) searchTerm)
  let s1 := { s with filteredProducts := filtered }
  let s2 := if truthy s1.currentSort then applySorting h s1 s1.currentSort else s1
  { s2 with currentPage := 1 }

/-- The function `goToNextPage` (lines 195-202). -/
def goToNextPage (s : State) : State :=
  if (totalPages s).gtInt s.currentPage then { s with currentPage := s.currentPage + 1 }
  else s

/-- The function `goToPrevPage` (lines 204-210). -/
def goToPrevPage (s : State) : State :=
  if s.currentPage > 1 then { s with currentPage := s.currentPage - 1 }
  else s

/-- The function `changePageSize` (lines 212-217); `selected` is the integer
`parseInt(pageSizeSelect.value)`. -/
def changePageSize (s : State) (selected : Int) : State :=
  { s with pageSize := selected, currentPage := 1 }

/-- How the request of `getAllProducts` ends: `fetch` rejects, the status is not OK,
`response.json()` rejects, or a product list arrives.  A body that parses but is not an array of
products is outside the model. -/
inductive FetchOutcome where
  | networkError (message : String)
  | httpError (status : Nat)
  | decodeError (message : String)
  | ok (data : List Product)
deriving DecidableEq, Repr

/-- State and error banner after `getAllProducts`. -/
structure LoadResult where
  state : State
  errorText : Option String
deriving DecidableEq, Repr

/-- The text written to `errorDiv` in the `catch` block (line 58). -/
def errorBanner (message : String) : String :=
  "Lỗi khi tải dữ liệu: " ++ message ++ ". Vui lòng thử lại sau!"

/-- The function `getAllProducts` (lines 29-61), given how the request ended. -/
def getAllProducts (s : State) (outcome : FetchOutcome) : LoadResult :=
  match outcome with
  | FetchOutcome.networkError message => { state := s, errorText := some (errorBanner message) }
  | FetchOutcome.httpError status =>
      { state := s, errorText := some (errorBanner ("HTTP error! status: " ++ toString status)) }
  | FetchOutcome.decodeError message => { state := s, errorText := some (errorBanner message) }
  | FetchOutcome.ok data =>
      { state := { s with allProducts := data, filteredProducts := data }, errorText := none }

/-! ## Runs of the page -/

/-- What can happen to the page: a request of `getAllProducts` ends, or one of the event
listeners of lines 220-229 fires (`applySorting` may also be called with any value through
`window.ProductManager`). -/
inductive Event where
  | load (outcome : FetchOutcome)
  | search (input : String)
  | sort (sortType : Option String)
  | nextPage
  | prevPage
  | resize (selected : Int)
deriving DecidableEq, Repr

/-- The state after one event. -/
def step (h : Host) (s : State) : Event → State
  | Event.load outcome => (getAllProducts s outcome).state
  | Event.search input => handleSearch h s input
  | Event.sort sortType => applySorting h s sortType
  | Event.nextPage => goToNextPage s
  | Event.prevPage => goToPrevPage s
  | Event.resize selected => changePageSize s selected

/-- The state after a sequence of events, handled one after the other. -/
def run (h : Host) (s : State) (events : List Event) : State :=
  events.foldl (step h) s

/-! ## Arrays as objects: the reference-level model -/

/-- The variables of `script.js` with arrays as objects: `heap` lists the arrays created so far,
and `allProducts` and `filteredProducts` hold the index of the array they refer to. -/
structure RefState where
  heap : List (List Product)
  allProducts : Nat
  filteredProducts : Nat
  currentPage : Int
  pageSize : Int
  currentSort : Option String
deriving DecidableEq, Repr

/-- The contents of the array at a reference. -/
def readArray (heap : List (List Product)) (ref : Nat) : List Product :=
  (heap[ref]?).getD []

/-- Values of the variables when the script has just been evaluated: the two literals `[]` of
lines 5 and 6 are two arrays. -/
def initialRefState : RefState :=
  { heap := [[], []], allProducts := 0, filteredProducts := 1, currentPage := 1, pageSize := 10,
    currentSort := none }

/-- The two variables refer to two different arrays of the heap. -/
@[reducible]
def RefState.separate (s : RefState) : Prop :=
  s.allProducts < s.heap.length ∧ s.filteredProducts < s.heap.length ∧
    s.allProducts ≠ s.filteredProducts

/-- The values the variables stand for: each reference replaced by the contents of its array. -/
def RefState.deref (s : RefState) : State :=
  { allProducts := readArray s.heap s.allProducts
    filteredProducts := readArray s.heap s.filteredProducts
    currentPage := s.currentPage
    pageSize := s.pageSize
    currentSort := s.currentSort }

/-- The function `applySorting` (lines 145-169) on references: `sort` rearranges the array that
`filteredProducts` refers to, in place. -/
def applySortingRef (h : Host) (s : RefState) (sortType : Option String) : RefState :=
  let target := readArray s.heap s.filteredProducts
  let heap :=
    if sortType = some "priceAsc" then
      s.heap.set s.filteredProducts (jsSort (fun a b => a.price - b.price) target)
    else if sortType = some "priceDesc" then
      s.heap.set s.filteredProducts (jsSort (fun a b => b.price - a.price) target)
    else if sortType = some "nameAsc" then
      s.heap.set s.filteredProducts (jsSort (fun a b => h.localeCompare a.title b.title) target)
    else if sortType = some "nameDesc" then
      s.heap.set s.filteredProducts (jsSort (fun a b => h.localeCompare b.title a.title) target)
    else s.heap
  { s with heap := heap, currentSort := sortType, currentPage := 1 }

/-- The function `handleSearch` (lines 123-142) on references: `[...allProducts]` and
`allProducts.filter(...)` each create a new array, to which `filteredProducts` then refers. -/
def handleSearchRef (h : Host) (s : RefState) (input : String) : RefState :=
  let searchTerm := jsTrim (h.toLowerCase input)
  let source := readArray s.heap s.allProducts
  let created :=
    if searchTerm = "" then source
    else source.filter (fun product => includes (h.toLowerCase product.title) searchTerm)
  let s1 := { s with heap := s.heap ++ [created], filteredProducts := s.heap.length }
  let s2 := if truthy s1.currentSort then applySortingRef h s1 s1.currentSort else s1
  { s2 with currentPage := 1 }

/-- The function `goToNextPage` (lines 195-202) on references. -/
def goToNextPageRef (s : RefState) : RefState :=
  if (mathCeilDiv (readArray s.heap s.filteredProducts).length s.pageSize).gtInt s.currentPage
  then { s with currentPage := s.currentPage + 1 }
  else s

/-- The function `goToPrevPage` (lines 204-210) on references. -/
def goToPrevPageRef (s : RefState) : RefState :=
  if s.currentPage > 1 then { s with currentPage := s.currentPage - 1 }
  else s

/-- The function `changePageSize` (lines 212-217) on references. -/
def changePageSizeRef (s : RefState) (selected : Int) : RefState :=
  { s with pageSize := selected, currentPage := 1 }

/-- The function `getAllProducts` (lines 29-61) on references: the decoded body is a new array,
to which `allProducts` refers, and `[...allProducts]` is another new array. -/
def getAllProductsRef (s : RefState) (outcome : FetchOutcome) : RefState :=
  match outcome with
  | FetchOutcome.ok data =>
      { s with
        heap := s.heap ++ [data, data]
        allProducts := s.heap.length
        filteredProducts := s.heap.length + 1 }
  | _ => s

/-- The reference-level state after one event. -/
def stepRef (h : Host) (s : RefState) : Event → RefState
  | Event.load outcome => getAllProductsRef s outcome
  | Event.search input => handleSearchRef h s input
  | Event.sort sortType => applySortingRef h s sortType
  | Event.nextPage => goToNextPageRef s
  | Event.prevPage => goToPrevPageRef s
  | Event.resize selected => changePageSizeRef s selected

/-- The reference-level state after a sequence of events. -/
def runRef (h : Host) (s : RefState) (events : List Event) : RefState :=
  events.foldl (stepRef h) s

/-! ## The derived sequence of the specification -/

/-- The derived sequence `filteredSorted` of the specification (section 3): `allProducts`
filtered by the stored search term (substring match on the lower-cased title), then stably sorted
per the sort key; load order when the key is none or not a known key. -/
def filteredSorted (h : Host) (allProducts : List Product) (searchTerm : String)
    (sortKey : Option String) : List Product :=
  let matching :=
    allProducts.filter (fun product => includes (h.toLowerCase product.title) searchTerm)
  match sortKey with
  | none => matching
  | some key =>
    if key = "priceAsc" then jsSort (fun a b => a.price - b.price) matching
    else if key = "priceDesc" then jsSort (fun a b => b.price - a.price) matching
    else if key = "nameAsc" then jsSort (fun a b => h.localeCompare a.title b.title) matching
    else if key = "nameDesc" then jsSort (fun a b => h.localeCompare b.title a.title) matching
    else matching

/-! ## Sample data -/

/-- A product with the given id, title and price and no display-only data. -/
def mkProduct (id : Int) (title : String) (price : Int) : Product :=
  { id := id, title := title, price := price, category := none, description := "", images := [] }

/-- A catalog of `n` products with ids `0 .. n - 1`. -/
def catalog (n : Nat) : List Product :=
  (List.range n).map (fun i => mkProduct i "item" (i : Int))

/-- The state after 25 products have been loaded into the initial state. -/
def loaded25 : State :=
  (getAllProducts initialState (FetchOutcome.ok (catalog 25))).state

/-- Load 25 products and press next twice. -/
def pagedEvents : List Event :=
  [Event.load (FetchOutcome.ok (catalog 25)), Event.nextPage, Event.nextPage]

/-- Load 25 products, press next twice, load 5 products. -/
def reloadEvents : List Event :=
  pagedEvents ++ [Event.load (FetchOutcome.ok (catalog 5))]

/-- Load 25 products, sort by price descending, press next. -/
def sortedPagedEvents : List Event :=
  [Event.load (FetchOutcome.ok (catalog 25)), Event.sort (some "priceDesc"), Event.nextPage]

/-- Load three fruits, sort by price descending, search for "P". -/
def fruitEvents : List Event :=
  [Event.load (FetchOutcome.ok
     [mkProduct 1 "pear" 5, mkProduct 2 "fig" 3, mkProduct 3 "apple" 5]),
   Event.sort (some "priceDesc"), Event.search "P"]

/-- Load two products of equal price, sort by name descending, then by price ascending. -/
def tieEvents : List Event :=
  [Event.load (FetchOutcome.ok [mkProduct 1 "a" 5, mkProduct 2 "b" 5]),
   Event.sort (some "nameDesc"), Event.sort (some "priceAsc")]

/-- A host for the examples: ASCII lower-casing, and comparison of titles by code point. -/
def sampleHost : Host :=
  { toLowerCase := fun t => String.mk (t.data.map Char.toLower)
    localeCompare := fun a b => if a.data < b.data then -1 else if a = b then 0 else 1 }

/-- The state after three products have been loaded into the initial state. -/
def loaded3 : State :=
  (getAllProducts initialState (FetchOutcome.ok (catalog 3))).state

/-- Load 3 products and search for a term no title contains. -/
def noMatchEvents : List Event :=
  [Event.load (FetchOutcome.ok (catalog 3)), Event.search "zzz"]

/-- Load 3 products, sort by price descending, then call `applySorting(null)`. -/
def priceThenNoneEvents : List Event :=
  [Event.load (FetchOutcome.ok (catalog 3)), Event.sort (some "priceDesc"), Event.sort none]

/-- A host whose `localeCompare` ignores case: titles are compared by code point after ASCII
lower-casing. -/
def foldHost : Host :=
  { toLowerCase := fun t => String.mk (t.data.map Char.toLower)
    localeCompare := fun a b =>
      if a.data.map Char.toLower < b.data.map Char.toLower then -1
      else if b.data.map Char.toLower < a.data.map Char.toLower then 1 else 0 }

/-- Three titles in mixed case, at one price. -/
def mixedCaseTitles : List Product :=
  [mkProduct 1 "Apple" 1, mkProduct 2 "banana" 1, mkProduct 3 "Cherry" 1]

/-- A state in which both variables refer to one array, as a plain `filteredProducts =
allProducts` would leave them. -/
def aliasedRefState : RefState :=
  { heap := [[mkProduct 1 "b" 2, mkProduct 2 "a" 1]], allProducts := 0, filteredProducts := 0,
    currentPage := 1, pageSize := 10, currentSort := none }

/-! ## Arithmetic of `Math.ceil(length / pageSize)` -/

/-- For a non-zero divisor `mathCeilDiv` is the ceiling of the exact quotient. -/
theorem mathCeilDiv_eq_ceil (n : Nat) (d : Int) (hd : d ≠ 0) :
    mathCeilDiv n d = JSNum.int ⌈(n : ℚ) / (d : ℚ)⌉ := by
  unfold mathCeilDiv
  rw [if_neg hd]
  congr 1
  rcases lt_or_gt_of_ne hd with hneg | hpos
  · obtain ⟨m, rfl⟩ : ∃ m : Nat, d = -((m : Int) + 1) := ⟨(-d - 1).toNat, by omega⟩
    have h1 : ((n : ℚ) / ((-((m : Int) + 1) : Int) : ℚ)) =
        -(((n : Int) : ℚ) / ((m + 1 : Nat) : ℚ)) := by
      push_cast
      rw [div_neg]
    rw [h1, Int.ceil_neg, Rat.floor_intCast_div_natCast]
    congr 1
    cases n with
    | zero => simp [Int.fdiv]
    | succ k =>
      show Int.fdiv (Int.negSucc k) (Int.negSucc m) = _
      simp [Int.fdiv]
  · obtain ⟨m, rfl⟩ : ∃ m : Nat, d = (m : Int) := ⟨d.toNat, by omega⟩
    rw [Int.fdiv_eq_ediv _ (by omega)]
    have h1 : ((n : ℚ) / (((m : Int)) : ℚ)) = -(((-(n : Int) : Int) : ℚ) / ((m : Nat) : ℚ)) := by
      push_cast
      rw [neg_div, neg_neg]
    rw [h1, Int.ceil_neg, Rat.floor_intCast_div_natCast]

/-- Page `c` exists (`c ≤ ceil(n / d)`) exactly when its first index `(c - 1) * d` is below `n`. -/
theorem le_ceil_div_iff (c : Int) (n : Nat) (d : Int) (hd : 0 < d) :
    c ≤ ⌈(n : ℚ) / (d : ℚ)⌉ ↔ (c - 1) * d < n := by
  have hd1 : (0 : ℚ) < (d : ℚ) := by exact_mod_cast hd
  rw [← Int.sub_one_lt_iff, Int.lt_ceil, lt_div_iff₀ hd1]
  constructor
  · intro h; exact_mod_cast h
  · intro h; exact_mod_cast h

/-- A non-empty list has at least one page. -/
theorem ceil_div_pos_of_pos (n : Nat) (d : Int) (hd : 0 < d) (hn : 0 < n) :
    1 ≤ ⌈(n : ℚ) / (d : ℚ)⌉ := by
  rw [le_ceil_div_iff _ _ _ hd]; simpa using hn

/-! ## Total page count -/

/-- C1 (as the code has it): for every state with `pageSize ≥ 1`, the page count computed by
`updatePaginationInfo` and the one `goToNextPage` compares with are both
`ceil(len(filteredProducts) / pageSize)`; this is `max(1, ceil(...))` whenever
`filteredProducts` is non-empty, and it is `0` when `filteredProducts` is empty; `pageInfo`
shows `currentPage` and this count. -/
theorem totalPages_eq_ceil (s : State) (hps : 1 ≤ s.pageSize) :
    (updatePaginationInfo s).totalPages
        = JSNum.int ⌈(s.filteredProducts.length : ℚ) / (s.pageSize : ℚ)⌉ ∧
    totalPages s = JSNum.int ⌈(s.filteredProducts.length : ℚ) / (s.pageSize : ℚ)⌉ ∧
    (s.filteredProducts ≠ [] →
      ⌈(s.filteredProducts.length : ℚ) / (s.pageSize : ℚ)⌉
        = max 1 ⌈(s.filteredProducts.length : ℚ) / (s.pageSize : ℚ)⌉) ∧
    (s.filteredProducts = [] → (updatePaginationInfo s).totalPages = JSNum.int 0) ∧
    (updatePaginationInfo s).pageInfo = "Trang " ++ toString s.currentPage ++ " / " ++
      toString ⌈(s.filteredProducts.length : ℚ) / (s.pageSize : ℚ)⌉ := by
  have hne : s.pageSize ≠ 0 := by omega
  have hlink := mathCeilDiv_eq_ceil s.filteredProducts.length s.pageSize hne
  refine ⟨hlink, hlink, ?_, ?_, ?_⟩
  · intro hnil
    have hlen : 0 < s.filteredProducts.length := List.length_pos.mpr hnil
    have := ceil_div_pos_of_pos s.filteredProducts.length s.pageSize (by omega) hlen
    omega
  · intro hnil
    show mathCeilDiv s.filteredProducts.length s.pageSize = JSNum.int 0
    rw [hlink, hnil]; simp
  · show "Trang " ++ toString s.currentPage ++ " / " ++
      (mathCeilDiv s.filteredProducts.length s.pageSize).render = _
    rw [hlink]
    rfl

/-- Instance of `totalPages_eq_ceil`: 25 products loaded into the initial state, page size 10:
three pages. -/
theorem totalPages_eq_ceil_witness :
    (1 : Int) ≤ loaded25.pageSize ∧
    (updatePaginationInfo loaded25).totalPages
      = JSNum.int ⌈(loaded25.filteredProducts.length : ℚ) / (loaded25.pageSize : ℚ)⌉ ∧
    (updatePaginationInfo loaded25).totalPages = JSNum.int 3 ∧
    (updatePaginationInfo loaded25).pageInfo = "Trang 1 / 3" :=
  ⟨by decide, (totalPages_eq_ceil loaded25 (by decide)).1, by decide, by decide⟩

/-- C1 (as stated) fails in the initial state: `pageSize` is 10, `filteredProducts` is empty,
and the page count is `0`, not `max(1, ceil(0 / 10)) = 1`. -/
theorem totalPages_empty_counterexample :
    1 ≤ initialState.pageSize ∧ initialState.filteredProducts = [] ∧
    (updatePaginationInfo initialState).totalPages = JSNum.int 0 ∧
    totalPages initialState = JSNum.int 0 ∧
    (updatePaginationInfo initialState).totalPages ≠
      JSNum.int (max 1
        ⌈(initialState.filteredProducts.length : ℚ) / (initialState.pageSize : ℚ)⌉) := by
  refine ⟨by decide, rfl, by decide, by decide, ?_⟩
  intro h
  have h0 : (updatePaginationInfo initialState).totalPages = JSNum.int 0 := by decide
  rw [h0] at h
  injection h with h
  have : (1 : Int) ≤
      max 1 ⌈(initialState.filteredProducts.length : ℚ) / (initialState.pageSize : ℚ)⌉ :=
    le_max_left _ _
  omega

/-! ## Slices and sorting: general facts -/

/-- A slice is a sublist of the array it is taken from. -/
theorem jsSlice_sublist {α : Type} (xs : List α) (start stop : Int) :
    (jsSlice xs start stop).Sublist xs := by
  unfold jsSlice
  exact (List.take_sublist _ _).trans (List.drop_sublist _ _)

/-- Sorting rearranges: the result is a permutation of the input, for any comparator. -/
theorem jsSort_perm {α : Type} (cmp : α → α → Int) (xs : List α) :
    (jsSort cmp xs).Perm xs :=
  List.perm_insertionSort _ xs

/-- The list left by `applySorting` is a permutation of the list before the call. -/
theorem applySorting_perm (h : Host) (s : State) (sortType : Option String) :
    (applySorting h s sortType).filteredProducts.Perm s.filteredProducts := by
  unfold applySorting
  simp only
  split_ifs
  · exact jsSort_perm _ _
  · exact jsSort_perm _ _
  · exact jsSort_perm _ _
  · exact jsSort_perm _ _
  · exact List.Perm.refl _

/-- The two branches of the filter in `handleSearch` agree: the empty term is contained in every
title, so the special case is the general filter. -/
theorem searchFilter_eq (h : Host) (s : State) (input : String) :
    (if jsTrim (h.toLowerCase input) = "" then s.allProducts
      else s.allProducts.filter
        (fun product => includes (h.toLowerCase product.title) (jsTrim (h.toLowerCase input))))
      = s.allProducts.filter
        (fun product => includes (h.toLowerCase product.title) (jsTrim (h.toLowerCase input))) := by
  split_ifs with hempty
  · rw [hempty]
    symm
    apply List.filter_eq_self.mpr
    intro a _
    simp [includes]
  · rfl

/-- The function `handleSearch` in one expression: filter, sort again when a sort is active, go to
page 1. -/
theorem handleSearch_eq (h : Host) (s : State) (input : String) :
    handleSearch h s input =
      if truthy s.currentSort = true then
        { (applySorting h
            { s with
              filteredProducts :=
                s.allProducts.filter (fun product =>
                  includes (h.toLowerCase product.title) (jsTrim (h.toLowerCase input))) }
            s.currentSort) with
          currentPage := 1 }
      else
        { s with
          filteredProducts :=
            s.allProducts.filter (fun product =>
              includes (h.toLowerCase product.title) (jsTrim (h.toLowerCase input)))
          currentPage := 1 } := by
  unfold handleSearch
  simp only [searchFilter_eq]
  by_cases ht : truthy s.currentSort = true
  · simp only [ht, if_true]
  · simp only [ht, if_false]; simp

/-- The function `applySorting` touches `filteredProducts`, `currentSort` and `currentPage` only. -/
theorem applySorting_frame (h : Host) (s : State) (sortType : Option String) :
    (applySorting h s sortType).allProducts = s.allProducts ∧
    (applySorting h s sortType).pageSize = s.pageSize ∧
    (applySorting h s sortType).currentSort = sortType ∧
    (applySorting h s sortType).currentPage = 1 :=
  ⟨rfl, rfl, rfl, rfl⟩

/-- The function `handleSearch` touches `filteredProducts` and `currentPage` only. -/
theorem handleSearch_frame (h : Host) (s : State) (input : String) :
    (handleSearch h s input).allProducts = s.allProducts ∧
    (handleSearch h s input).pageSize = s.pageSize ∧
    (handleSearch h s input).currentSort = s.currentSort ∧
    (handleSearch h s input).currentPage = 1 := by
  rw [handleSearch_eq]
  split_ifs <;> exact ⟨rfl, rfl, rfl, rfl⟩

/-- After `handleSearch` the list is a permutation of the matching products. -/
theorem handleSearch_perm_filter (h : Host) (s : State) (input : String) :
    (handleSearch h s input).filteredProducts.Perm
      (s.allProducts.filter
        (fun product => includes (h.toLowerCase product.title) (jsTrim (h.toLowerCase input)))) := by
  rw [handleSearch_eq]
  split_ifs
  · exact applySorting_perm h _ _
  · exact List.Perm.refl _

/-- With a comparator that is a total preorder, the sorted list is ordered by it. -/
theorem jsSort_sorted {α : Type} (cmp : α → α → Int)
    (htotal : ∀ a b, cmp a b ≤ 0 ∨ cmp b a ≤ 0)
    (htrans : ∀ a b c, cmp a b ≤ 0 → cmp b c ≤ 0 → cmp a c ≤ 0) (xs : List α) :
    (jsSort cmp xs).Pairwise (fun a b => cmp a b ≤ 0) := by
  haveI : IsTotal α (fun a b => cmp a b ≤ 0) := ⟨htotal⟩
  haveI : IsTrans α (fun a b => cmp a b ≤ 0) := ⟨htrans⟩
  exact List.sorted_insertionSort (fun a b => cmp a b ≤ 0) xs

/-- Stability: the elements selected by a predicate whose members all compare as equal or
ordered keep their order. -/
theorem jsSort_filter_eq {α : Type} (cmp : α → α → Int) (q : α → Bool)
    (hq : ∀ a b, q a = true → q b = true → cmp a b ≤ 0) (xs : List α) :
    (jsSort cmp xs).filter q = xs.filter q := by
  have hpair : (xs.filter q).Pairwise (fun a b => cmp a b ≤ 0) := by
    rw [List.pairwise_iff_forall_sublist]
    intro a b hab
    have ha : a ∈ xs.filter q := hab.subset (by simp)
    have hb : b ∈ xs.filter q := hab.subset (by simp)
    exact hq a b (List.mem_filter.mp ha).2 (List.mem_filter.mp hb).2
  have hsub : (xs.filter q).Sublist (jsSort cmp xs) :=
    List.sublist_insertionSort hpair (List.filter_sublist xs)
  have hsub2 : (xs.filter q).Sublist ((jsSort cmp xs).filter q) := by
    have := hsub.filter q
    simpa [List.filter_filter] using this
  have hlen : ((jsSort cmp xs).filter q).length = (xs.filter q).length :=
    ((jsSort_perm cmp xs).filter q).length_eq
  exact (hsub2.eq_of_length hlen.symm).symm

/-! ## Search -/

/-- C2: after `handleSearch` a product is in `filteredProducts` exactly when it is in
`allProducts` and its lower-cased title contains the trimmed, lower-cased input; no product
occurs more often than in `allProducts`; and the slice shown for any page number holds only such
products. -/
theorem handleSearch_filter (h : Host) (s : State) (input : String) :
    (∀ p : Product, p ∈ (handleSearch h s input).filteredProducts ↔
      (p ∈ s.allProducts ∧
        includes (h.toLowerCase p.title) (jsTrim (h.toLowerCase input)) = true)) ∧
    (∀ p : Product,
      (handleSearch h s input).filteredProducts.count p ≤ s.allProducts.count p) ∧
    (∀ (page : Int) (p : Product),
      p ∈ pageProducts { handleSearch h s input with currentPage := page } →
      (p ∈ s.allProducts ∧
        includes (h.toLowerCase p.title) (jsTrim (h.toLowerCase input)) = true)) := by
  have hperm := handleSearch_perm_filter h s input
  have hmem : ∀ p : Product, p ∈ (handleSearch h s input).filteredProducts ↔
      (p ∈ s.allProducts ∧
        includes (h.toLowerCase p.title) (jsTrim (h.toLowerCase input)) = true) := by
    intro p
    rw [hperm.mem_iff, List.mem_filter]
  refine ⟨hmem, ?_, ?_⟩
  · intro p
    rw [hperm.count_eq]
    exact (List.filter_sublist _).count_le p
  · intro page p hp
    exact (hmem p).mp ((jsSlice_sublist _ _ _).subset hp)

/-! ## Sorting by price -/

/-- C3: after `applySorting("priceAsc")` the whole of `filteredProducts` is non-decreasing in
price, after `applySorting("priceDesc")` it is non-increasing, and both results are
permutations of the list before the call. -/
theorem applySorting_price_sorted (h : Host) (s : State) :
    (applySorting h s (some "priceAsc")).filteredProducts.Pairwise
        (fun a b => a.price ≤ b.price) ∧
    (applySorting h s (some "priceAsc")).filteredProducts.Perm s.filteredProducts ∧
    (applySorting h s (some "priceDesc")).filteredProducts.Pairwise
        (fun a b => a.price ≥ b.price) ∧
    (applySorting h s (some "priceDesc")).filteredProducts.Perm s.filteredProducts := by
  refine ⟨?_, applySorting_perm h s _, ?_, applySorting_perm h s _⟩
  · have hs := jsSort_sorted (fun a b : Product => a.price - b.price)
      (fun a b => by simp only; omega) (fun a b c => by simp only; omega) s.filteredProducts
    have heq : (applySorting h s (some "priceAsc")).filteredProducts
        = jsSort (fun a b : Product => a.price - b.price) s.filteredProducts := by
      simp [applySorting]
    rw [heq]
    exact hs.imp (fun hab => by omega)
  · have hs := jsSort_sorted (fun a b : Product => b.price - a.price)
      (fun a b => by simp only; omega) (fun a b c => by simp only; omega) s.filteredProducts
    have heq : (applySorting h s (some "priceDesc")).filteredProducts
        = jsSort (fun a b : Product => b.price - a.price) s.filteredProducts := by
      simp [applySorting]
    rw [heq]
    exact hs.imp (fun hab => by omega)

/-! ## Runs -/

/-- A run that ends with one more event. -/
theorem run_append_one (h : Host) (s : State) (events : List Event) (e : Event) :
    run h s (events ++ [e]) = step h (run h s events) e := by
  simp [run, List.foldl_append]

/-- A property of the initial state that every step preserves, as long as the events satisfy
`ok`, holds after every run of such events. -/
theorem run_induction (h : Host) (ok : Event → Prop) (inv : State → Prop)
    (hinit : inv initialState)
    (hstep : ∀ s e, inv s → ok e → inv (step h s e))
    (events : List Event) (hok : ∀ e ∈ events, ok e) : inv (run h initialState events) := by
  induction events using List.reverseRecOn with
  | nil => exact hinit
  | append_singleton es e ih =>
    rw [run_append_one]
    exact hstep _ _ (ih (fun x hx => hok x (List.mem_append_left _ hx)))
      (hok e (List.mem_append_right _ (List.mem_singleton_self e)))

/-- The function `goToNextPage` touches `currentPage` only. -/
theorem goToNextPage_frame (s : State) :
    (goToNextPage s).allProducts = s.allProducts ∧
    (goToNextPage s).filteredProducts = s.filteredProducts ∧
    (goToNextPage s).pageSize = s.pageSize ∧
    (goToNextPage s).currentSort = s.currentSort := by
  unfold goToNextPage
  split_ifs <;> exact ⟨rfl, rfl, rfl, rfl⟩

/-- The function `goToPrevPage` touches `currentPage` only. -/
theorem goToPrevPage_frame (s : State) :
    (goToPrevPage s).allProducts = s.allProducts ∧
    (goToPrevPage s).filteredProducts = s.filteredProducts ∧
    (goToPrevPage s).pageSize = s.pageSize ∧
    (goToPrevPage s).currentSort = s.currentSort := by
  unfold goToPrevPage
  split_ifs <;> exact ⟨rfl, rfl, rfl, rfl⟩

/-! ## Stability of the price sorts -/

/-- Sorting with a key other than the two name keys keeps the products of each price in the
order they had. -/
theorem applySorting_filter_price (h : Host) (s : State) (sortType : Option String)
    (hasc : sortType ≠ some "nameAsc") (hdesc : sortType ≠ some "nameDesc") (v : Int) :
    (applySorting h s sortType).filteredProducts.filter (fun p => decide (p.price = v))
      = s.filteredProducts.filter (fun p => decide (p.price = v)) := by
  unfold applySorting
  simp only
  split_ifs
  · apply jsSort_filter_eq
    intro a b ha hb
    simp only [decide_eq_true_eq] at ha hb
    omega
  · apply jsSort_filter_eq
    intro a b ha hb
    simp only [decide_eq_true_eq] at ha hb
    omega
  · rfl

/-- One step keeps: `currentSort` is not a name key, and the products of each price are listed
in load order; provided the step is not a sort by name. -/
theorem priceOrder_step (h : Host) (s : State) (e : Event)
    (hinv : (s.currentSort ≠ some "nameAsc" ∧ s.currentSort ≠ some "nameDesc") ∧
      ∀ v : Int, (s.filteredProducts.filter (fun p => decide (p.price = v))).Sublist s.allProducts)
    (he : e ≠ Event.sort (some "nameAsc") ∧ e ≠ Event.sort (some "nameDesc")) :
    ((step h s e).currentSort ≠ some "nameAsc" ∧ (step h s e).currentSort ≠ some "nameDesc") ∧
      ∀ v : Int, ((step h s e).filteredProducts.filter (fun p => decide (p.price = v))).Sublist
        (step h s e).allProducts := by
  obtain ⟨⟨hs1, hs2⟩, hsub⟩ := hinv
  cases e with
  | load outcome =>
    cases outcome with
    | ok data => exact ⟨⟨hs1, hs2⟩, fun v => List.filter_sublist _⟩
    | networkError m => exact ⟨⟨hs1, hs2⟩, hsub⟩
    | httpError m => exact ⟨⟨hs1, hs2⟩, hsub⟩
    | decodeError m => exact ⟨⟨hs1, hs2⟩, hsub⟩
  | search input =>
    show ((handleSearch h s input).currentSort ≠ _ ∧ (handleSearch h s input).currentSort ≠ _) ∧
      ∀ v : Int, ((handleSearch h s input).filteredProducts.filter _).Sublist
        (handleSearch h s input).allProducts
    obtain ⟨hall, _, hsort, _⟩ := handleSearch_frame h s input
    rw [hall, hsort]
    refine ⟨⟨hs1, hs2⟩, fun v => ?_⟩
    rw [handleSearch_eq]
    split_ifs
    · show ((applySorting h _ s.currentSort).filteredProducts.filter _).Sublist s.allProducts
      rw [applySorting_filter_price h _ s.currentSort hs1 hs2 v]
      exact (List.filter_sublist _).trans (List.filter_sublist _)
    · exact (List.filter_sublist _).trans (List.filter_sublist _)
  | sort sortType =>
    have h1 : sortType ≠ some "nameAsc" := fun hc => he.1 (by rw [hc])
    have h2 : sortType ≠ some "nameDesc" := fun hc => he.2 (by rw [hc])
    refine ⟨⟨h1, h2⟩, fun v => ?_⟩
    show ((applySorting h s sortType).filteredProducts.filter _).Sublist s.allProducts
    rw [applySorting_filter_price h s sortType h1 h2 v]
    exact hsub v
  | nextPage =>
    show ((goToNextPage s).currentSort ≠ _ ∧ (goToNextPage s).currentSort ≠ _) ∧
      ∀ v : Int, ((goToNextPage s).filteredProducts.filter _).Sublist (goToNextPage s).allProducts
    obtain ⟨ha, hf, _, hc⟩ := goToNextPage_frame s
    rw [ha, hf, hc]
    exact ⟨⟨hs1, hs2⟩, hsub⟩
  | prevPage =>
    show ((goToPrevPage s).currentSort ≠ _ ∧ (goToPrevPage s).currentSort ≠ _) ∧
      ∀ v : Int, ((goToPrevPage s).filteredProducts.filter _).Sublist (goToPrevPage s).allProducts
    obtain ⟨ha, hf, _, hc⟩ := goToPrevPage_frame s
    rw [ha, hf, hc]
    exact ⟨⟨hs1, hs2⟩, hsub⟩
  | resize n => exact ⟨⟨hs1, hs2⟩, hsub⟩

/-- C4 (as the code has it): `applySorting("priceAsc")` and `applySorting("priceDesc")` are stable
with respect to the order of `filteredProducts` before the call: for every price, the products
of that price are the same sequence before and after.  Hence, in every state reached from the
initial state by loads, searches, page moves, page-size changes and sorts whose key is not
`nameAsc` or `nameDesc`, after a price sort the products of equal price appear in the relative
order they have in `allProducts`. -/
theorem applySorting_price_stable (h : Host) :
    (∀ (s : State) (v : Int),
      (applySorting h s (some "priceAsc")).filteredProducts.filter
          (fun p => decide (p.price = v))
        = s.filteredProducts.filter (fun p => decide (p.price = v)) ∧
      (applySorting h s (some "priceDesc")).filteredProducts.filter
          (fun p => decide (p.price = v))
        = s.filteredProducts.filter (fun p => decide (p.price = v))) ∧
    (∀ events : List Event,
      (∀ e ∈ events, e ≠ Event.sort (some "nameAsc") ∧ e ≠ Event.sort (some "nameDesc")) →
      ∀ v : Int,
        ((applySorting h (run h initialState events) (some "priceAsc")).filteredProducts.filter
          (fun p => decide (p.price = v))).Sublist (run h initialState events).allProducts ∧
        ((applySorting h (run h initialState events) (some "priceDesc")).filteredProducts.filter
          (fun p => decide (p.price = v))).Sublist (run h initialState events).allProducts) := by
  constructor
  · intro s v
    exact ⟨applySorting_filter_price h s _ (by decide) (by decide) v,
      applySorting_filter_price h s _ (by decide) (by decide) v⟩
  · intro events hok v
    have hinv := run_induction h
      (fun e => e ≠ Event.sort (some "nameAsc") ∧ e ≠ Event.sort (some "nameDesc"))
      (fun s => (s.currentSort ≠ some "nameAsc" ∧ s.currentSort ≠ some "nameDesc") ∧
        ∀ v : Int, (s.filteredProducts.filter (fun p => decide (p.price = v))).Sublist
          s.allProducts)
      ⟨⟨by decide, by decide⟩, fun v => List.Sublist.refl _⟩
      (fun s e hs he => priceOrder_step h s e hs he) events hok
    rw [applySorting_filter_price h _ _ (by decide) (by decide) v,
      applySorting_filter_price h _ _ (by decide) (by decide) v]
    exact ⟨hinv.2 v, hinv.2 v⟩

/-- Instance of `applySorting_price_stable`: load pear (5), fig (3), apple (5), sort by price
descending, search "P", then sort by price ascending: pear stays before apple, as loaded. -/
theorem applySorting_price_stable_witness :
    (∀ e ∈ fruitEvents,
        e ≠ Event.sort (some "nameAsc") ∧ e ≠ Event.sort (some "nameDesc")) ∧
    ((applySorting sampleHost (run sampleHost initialState fruitEvents)
        (some "priceAsc")).filteredProducts.filter (fun p => decide (p.price = 5))).Sublist
      (run sampleHost initialState fruitEvents).allProducts ∧
    (applySorting sampleHost (run sampleHost initialState fruitEvents)
        (some "priceAsc")).filteredProducts = [mkProduct 1 "pear" 5, mkProduct 3 "apple" 5] :=
  ⟨by decide,
   ((applySorting_price_stable sampleHost).2 fruitEvents (by decide) 5).1,
   by decide⟩

/-- C4 (as stated) fails: load a (5), b (5), sort by name descending, then by price ascending.
The two products have the same price, `allProducts` has a before b, and `filteredProducts` has
b before a: the price sort kept the order the name sort had left. -/
theorem applySorting_price_after_name_counterexample :
    (run sampleHost initialState tieEvents).allProducts
      = [mkProduct 1 "a" 5, mkProduct 2 "b" 5] ∧
    (run sampleHost initialState tieEvents).currentSort = some "priceAsc" ∧
    (run sampleHost initialState tieEvents).filteredProducts
      = [mkProduct 2 "b" 5, mkProduct 1 "a" 5] ∧
    (mkProduct 1 "a" 5).price = (mkProduct 2 "b" 5).price ∧
    ¬ ((run sampleHost initialState tieEvents).filteredProducts.filter
        (fun p => decide (p.price = 5))).Sublist
      (run sampleHost initialState tieEvents).allProducts := by
  decide

/-! ## Return to page 1 -/

/-- C5: from every state, `handleSearch` (any input), `applySorting` (any sort type) and
`changePageSize` (any selected size) leave `currentPage` equal to 1. -/
theorem currentPage_reset (h : Host) (s : State) (input : String) (sortType : Option String)
    (selected : Int) :
    (handleSearch h s input).currentPage = 1 ∧
    (applySorting h s sortType).currentPage = 1 ∧
    (changePageSize s selected).currentPage = 1 :=
  ⟨(handleSearch_frame h s input).2.2.2, rfl, rfl⟩

/-! ## Next and previous page -/

/-- The comparison `currentPage < totalPages` of `goToNextPage`, for a non-zero page size. -/
theorem totalPages_gtInt (s : State) (hps : s.pageSize ≠ 0) :
    (totalPages s).gtInt s.currentPage = true ↔
      s.currentPage < ⌈(s.filteredProducts.length : ℚ) / (s.pageSize : ℚ)⌉ := by
  unfold totalPages
  rw [mathCeilDiv_eq_ceil _ _ hps]
  simp [JSNum.gtInt]

/-- C6 (as the code has it): with `T = ceil(len(filteredProducts) / pageSize)` and
`pageSize ≠ 0`, `goToNextPage` leaves the whole state unchanged when `currentPage ≥ T` (the last
page, the empty list, and any page beyond the last) and adds exactly 1 to `currentPage`,
changing nothing else, when `currentPage < T`; `goToPrevPage` leaves the whole state unchanged
when `currentPage ≤ 1` and subtracts exactly 1, changing nothing else, when `currentPage > 1`.
With `pageSize = 0` the page count is `Infinity` or `NaN`: `goToNextPage` advances on a non-empty
list and does nothing on an empty one. -/
theorem goToNextPage_goToPrevPage_effect (s : State) :
    (s.pageSize ≠ 0 → ⌈(s.filteredProducts.length : ℚ) / (s.pageSize : ℚ)⌉ ≤ s.currentPage →
      goToNextPage s = s) ∧
    (s.pageSize ≠ 0 → s.currentPage < ⌈(s.filteredProducts.length : ℚ) / (s.pageSize : ℚ)⌉ →
      goToNextPage s = { s with currentPage := s.currentPage + 1 }) ∧
    (s.currentPage ≤ 1 → goToPrevPage s = s) ∧
    (1 < s.currentPage → goToPrevPage s = { s with currentPage := s.currentPage - 1 }) ∧
    (s.pageSize = 0 → s.filteredProducts ≠ [] →
      goToNextPage s = { s with currentPage := s.currentPage + 1 }) ∧
    (s.pageSize = 0 → s.filteredProducts = [] → goToNextPage s = s) := by
  refine ⟨?_, ?_, ?_, ?_, ?_, ?_⟩
  · intro hps hle
    have hno : ¬ (totalPages s).gtInt s.currentPage = true := by
      rw [totalPages_gtInt s hps]; omega
    unfold goToNextPage
    rw [if_neg hno]
  · intro hps hlt
    have hyes : (totalPages s).gtInt s.currentPage = true := (totalPages_gtInt s hps).mpr hlt
    unfold goToNextPage
    rw [if_pos hyes]
  · intro hle
    unfold goToPrevPage
    rw [if_neg (by omega)]
  · intro hlt
    unfold goToPrevPage
    rw [if_pos (by omega)]
  · intro hps hne
    have hlen : s.filteredProducts.length ≠ 0 := fun hc => hne (List.length_eq_zero.mp hc)
    have hyes : (totalPages s).gtInt s.currentPage = true := by
      simp [totalPages, mathCeilDiv, hps, hlen, JSNum.gtInt]
    unfold goToNextPage
    rw [if_pos hyes]
  · intro hps hnil
    have hno : ¬ (totalPages s).gtInt s.currentPage = true := by
      simp [totalPages, mathCeilDiv, hps, hnil, JSNum.gtInt]
    unfold goToNextPage
    rw [if_neg hno]

/-- Instance of `goToNextPage_goToPrevPage_effect`: 25 products, page size 10, page 2 of 3:
`goToNextPage` gives page 3 and `goToPrevPage` gives page 1. -/
theorem goToNextPage_goToPrevPage_effect_witness :
    ({ loaded25 with currentPage := 2 } : State).pageSize ≠ 0 ∧
    ({ loaded25 with currentPage := 2 } : State).currentPage
      < ⌈(((catalog 25).length : Nat) : ℚ) / ((10 : Int) : ℚ)⌉ ∧
    (1 : Int) < ({ loaded25 with currentPage := 2 } : State).currentPage ∧
    goToNextPage { loaded25 with currentPage := 2 } = { loaded25 with currentPage := 3 } ∧
    goToPrevPage { loaded25 with currentPage := 2 } = { loaded25 with currentPage := 1 } :=
  have hlt : ({ loaded25 with currentPage := 2 } : State).currentPage
      < ⌈(((catalog 25).length : Nat) : ℚ) / ((10 : Int) : ℚ)⌉ :=
    Int.add_one_le_iff.mp ((le_ceil_div_iff 3 25 10 (by decide)).mpr (by decide))
  ⟨by decide, hlt, by decide,
   (goToNextPage_goToPrevPage_effect { loaded25 with currentPage := 2 }).2.1 (by decide) hlt,
   (goToNextPage_goToPrevPage_effect { loaded25 with currentPage := 2 }).2.2.2.1 (by decide)⟩

/-- C6 (as stated) fails: load 25 products, go to page 3, load 5 products.  Now `currentPage`
is 3 and there is one page, so `currentPage` is not the last page; yet `goToNextPage` leaves the
state unchanged instead of adding 1. -/
theorem goToNextPage_beyond_last_counterexample :
    (run sampleHost initialState reloadEvents).currentPage = 3 ∧
    (run sampleHost initialState reloadEvents).pageSize = 10 ∧
    totalPages (run sampleHost initialState reloadEvents) = JSNum.int 1 ∧
    (run sampleHost initialState reloadEvents).currentPage ≠ max 1 1 ∧
    goToNextPage (run sampleHost initialState reloadEvents)
      = run sampleHost initialState reloadEvents ∧
    (goToNextPage (run sampleHost initialState reloadEvents)).currentPage
      ≠ (run sampleHost initialState reloadEvents).currentPage + 1 := by
  decide

/-! ## Page size -/

/-- C7 (as the code has it): `changePageSize` never fails and sets `pageSize` to the selected
size, whatever its sign, leaving the product lists and the sort key unchanged; so `pageSize ≥ 1`
holds in every state reached from the initial state by events whose selected sizes are all
at least 1. -/
theorem changePageSize_sets_pageSize (h : Host) :
    (∀ (s : State) (selected : Int),
      (changePageSize s selected).pageSize = selected ∧
      (changePageSize s selected).allProducts = s.allProducts ∧
      (changePageSize s selected).filteredProducts = s.filteredProducts ∧
      (changePageSize s selected).currentSort = s.currentSort) ∧
    (∀ events : List Event, (∀ e ∈ events, ∀ n : Int, e = Event.resize n → 1 ≤ n) →
      1 ≤ (run h initialState events).pageSize) := by
  refine ⟨fun s selected => ⟨rfl, rfl, rfl, rfl⟩, fun events hok => ?_⟩
  refine run_induction h (fun e => ∀ n : Int, e = Event.resize n → 1 ≤ n)
    (fun s => 1 ≤ s.pageSize) (by decide) ?_ events hok
  intro s e hs he
  cases e with
  | load outcome => cases outcome <;> exact hs
  | search input =>
    show 1 ≤ (handleSearch h s input).pageSize
    rw [(handleSearch_frame h s input).2.1]; exact hs
  | sort sortType => exact hs
  | nextPage =>
    show 1 ≤ (goToNextPage s).pageSize
    rw [(goToNextPage_frame s).2.2.1]; exact hs
  | prevPage =>
    show 1 ≤ (goToPrevPage s).pageSize
    rw [(goToPrevPage_frame s).2.2.1]; exact hs
  | resize n => exact he n rfl

/-- Instance of `changePageSize_sets_pageSize`: load 3 products, select 25, press next. -/
theorem changePageSize_sets_pageSize_witness :
    (∀ e ∈ [Event.load (FetchOutcome.ok (catalog 3)), Event.resize 25, Event.nextPage],
      ∀ n : Int, e = Event.resize n → 1 ≤ n) ∧
    1 ≤ (run sampleHost initialState
      [Event.load (FetchOutcome.ok (catalog 3)), Event.resize 25, Event.nextPage]).pageSize ∧
    (run sampleHost initialState
      [Event.load (FetchOutcome.ok (catalog 3)), Event.resize 25, Event.nextPage]).pageSize = 25 :=
  have hok : ∀ e ∈ [Event.load (FetchOutcome.ok (catalog 3)), Event.resize 25, Event.nextPage],
      ∀ n : Int, e = Event.resize n → 1 ≤ n := by
    intro e he n hn
    subst hn
    simp at he
    omega
  ⟨hok, (changePageSize_sets_pageSize sampleHost).2 _ hok, by decide⟩

/-- C7 (as stated) fails: selecting size 0 in the initial state is not rejected; `pageSize`
goes from 10 to 0, a reachable state with `pageSize < 1`. -/
theorem changePageSize_zero_counterexample :
    initialState.pageSize = 10 ∧
    (changePageSize initialState 0).pageSize = 0 ∧
    (changePageSize initialState 0).pageSize ≠ initialState.pageSize ∧
    ¬ (1 ≤ (run sampleHost initialState [Event.resize 0]).pageSize) := by
  decide

/-! ## Range of the page index -/

/-- Every event other than a successful load and a change to a non-positive page size keeps
`pageSize ≥ 1` and `1 ≤ currentPage ≤ max(totalPages, 1)`. -/
theorem pageRange_step (h : Host) (s : State) (e : Event) (hps : 1 ≤ s.pageSize)
    (hinv : 1 ≤ s.currentPage ∧
      s.currentPage ≤ max ⌈(s.filteredProducts.length : ℚ) / (s.pageSize : ℚ)⌉ 1)
    (hload : ∀ data, e ≠ Event.load (FetchOutcome.ok data))
    (hsize : ∀ n : Int, e = Event.resize n → 1 ≤ n) :
    1 ≤ (step h s e).pageSize ∧ 1 ≤ (step h s e).currentPage ∧
      (step h s e).currentPage ≤
        max ⌈((step h s e).filteredProducts.length : ℚ) / ((step h s e).pageSize : ℚ)⌉ 1 := by
  cases e with
  | load outcome =>
    cases outcome with
    | ok data => exact absurd rfl (hload data)
    | networkError m => exact ⟨hps, hinv⟩
    | httpError m => exact ⟨hps, hinv⟩
    | decodeError m => exact ⟨hps, hinv⟩
  | search input =>
    show 1 ≤ (handleSearch h s input).pageSize ∧ 1 ≤ (handleSearch h s input).currentPage ∧
      (handleSearch h s input).currentPage ≤ max _ 1
    obtain ⟨_, hp, _, hc⟩ := handleSearch_frame h s input
    rw [hp, hc]
    exact ⟨hps, le_refl _, le_max_right _ _⟩
  | sort sortType => exact ⟨hps, le_refl _, le_max_right _ _⟩
  | nextPage =>
    show 1 ≤ (goToNextPage s).pageSize ∧ 1 ≤ (goToNextPage s).currentPage ∧
      (goToNextPage s).currentPage ≤
        max ⌈((goToNextPage s).filteredProducts.length : ℚ) / ((goToNextPage s).pageSize : ℚ)⌉ 1
    obtain ⟨_, hf, hp, _⟩ := goToNextPage_frame s
    rw [hf, hp]
    unfold goToNextPage
    split_ifs with hgt
    · have hlt := (totalPages_gtInt s (by omega)).mp hgt
      refine ⟨hps, ?_, ?_⟩
      · show 1 ≤ s.currentPage + 1
        omega
      · show s.currentPage + 1 ≤ max _ 1
        exact le_max_of_le_left (by omega)
    · exact ⟨hps, hinv⟩
  | prevPage =>
    show 1 ≤ (goToPrevPage s).pageSize ∧ 1 ≤ (goToPrevPage s).currentPage ∧
      (goToPrevPage s).currentPage ≤
        max ⌈((goToPrevPage s).filteredProducts.length : ℚ) / ((goToPrevPage s).pageSize : ℚ)⌉ 1
    obtain ⟨_, hf, hp, _⟩ := goToPrevPage_frame s
    rw [hf, hp]
    unfold goToPrevPage
    split_ifs with hgt
    · refine ⟨hps, ?_, ?_⟩
      · show 1 ≤ s.currentPage - 1
        omega
      · show s.currentPage - 1 ≤ max _ 1
        exact le_trans (by omega) hinv.2
    · exact ⟨hps, hinv⟩
  | resize n => exact ⟨hsize n rfl, le_refl _, le_max_right _ _⟩

/-- C8 (the code at the failing input): load 25 products and go to page 3, where the page index
is in range (3 of 3 pages); then load 5 products.  `getAllProducts` keeps `currentPage = 3`
while there is now one page, so `1 ≤ currentPage ≤ max(totalPages, 1)` is broken, and
`renderTable` shows the "no products found" row although five products are listed. -/
theorem getAllProducts_reload_breaks_page_range :
    (run sampleHost initialState pagedEvents).currentPage = 3 ∧
    totalPages (run sampleHost initialState pagedEvents) = JSNum.int 3 ∧
    (getAllProducts (run sampleHost initialState pagedEvents)
      (FetchOutcome.ok (catalog 5))).state.currentPage = 3 ∧
    totalPages (getAllProducts (run sampleHost initialState pagedEvents)
      (FetchOutcome.ok (catalog 5))).state = JSNum.int 1 ∧
    ¬ ((getAllProducts (run sampleHost initialState pagedEvents)
      (FetchOutcome.ok (catalog 5))).state.currentPage ≤ max 1 1) ∧
    (getAllProducts (run sampleHost initialState pagedEvents)
      (FetchOutcome.ok (catalog 5))).state.filteredProducts = catalog 5 ∧
    renderTable (getAllProducts (run sampleHost initialState pagedEvents)
      (FetchOutcome.ok (catalog 5))).state = TableBody.noData := by
  decide

/-! ## Loading -/

/-- What a successful load assigns: `allProducts` and `filteredProducts` become the product list
`data`, no error is shown, and `currentSort`, `currentPage` and `pageSize` are not assigned. -/
theorem getAllProducts_ok_effect (s : State) (data : List Product) :
    (getAllProducts s (FetchOutcome.ok data)).state.allProducts = data ∧
    (getAllProducts s (FetchOutcome.ok data)).state.filteredProducts = data ∧
    (getAllProducts s (FetchOutcome.ok data)).state.currentSort = s.currentSort ∧
    (getAllProducts s (FetchOutcome.ok data)).state.currentPage = s.currentPage ∧
    (getAllProducts s (FetchOutcome.ok data)).state.pageSize = s.pageSize ∧
    (getAllProducts s (FetchOutcome.ok data)).errorText = none :=
  ⟨rfl, rfl, rfl, rfl, rfl, rfl⟩

/-- C9 (the code at the failing input): load 25 products, sort by price descending, go to page
2, then load 5 products.  The second load replaces `allProducts` and `filteredProducts` by the
new list in load order, but `currentSort` is still `"priceDesc"`, not none, and `currentPage` is
still 2, not 1.  The list shown is not in the order of the active sort: `handleSearch`, which
rebuilds the list the same way, sorts it again and would list the prices 4, 3, 2, 1, 0. -/
theorem getAllProducts_reload_keeps_sort_and_page :
    (run sampleHost initialState sortedPagedEvents).currentSort = some "priceDesc" ∧
    (run sampleHost initialState sortedPagedEvents).currentPage = 2 ∧
    (getAllProducts (run sampleHost initialState sortedPagedEvents)
      (FetchOutcome.ok (catalog 5))).state
      = { allProducts := catalog 5, filteredProducts := catalog 5, currentPage := 2,
          pageSize := 10, currentSort := some "priceDesc" } ∧
    (getAllProducts (run sampleHost initialState sortedPagedEvents)
      (FetchOutcome.ok (catalog 5))).state.currentSort ≠ none ∧
    (getAllProducts (run sampleHost initialState sortedPagedEvents)
      (FetchOutcome.ok (catalog 5))).state.currentPage ≠ 1 ∧
    (handleSearch sampleHost (getAllProducts (run sampleHost initialState sortedPagedEvents)
      (FetchOutcome.ok (catalog 5))).state "").filteredProducts
      = [mkProduct 4 "item" 4, mkProduct 3 "item" 3, mkProduct 2 "item" 2, mkProduct 1 "item" 1,
         mkProduct 0 "item" 0] := by
  decide

/-! ## Item ordinals of the page summary -/

/-- On an existing page of a non-empty list (`pageSize ≥ 1`, first index below the length), the
slice of `renderTable` is `filteredProducts` from the first index up to the end of the page or of
the list. -/
theorem pageProducts_eq (s : State) (hps : 1 ≤ s.pageSize) (h1 : 1 ≤ s.currentPage)
    (hlt : (s.currentPage - 1) * s.pageSize < s.filteredProducts.length) :
    pageProducts s =
      (s.filteredProducts.drop ((s.currentPage - 1) * s.pageSize).toNat).take
        (min (s.currentPage * s.pageSize) (s.filteredProducts.length : Int)
          - (s.currentPage - 1) * s.pageSize).toNat := by
  have hnn : 0 ≤ (s.currentPage - 1) * s.pageSize := mul_nonneg (by omega) (by omega)
  have hmul : s.currentPage * s.pageSize = (s.currentPage - 1) * s.pageSize + s.pageSize := by ring
  unfold pageProducts jsSlice
  simp only
  rw [hmul]
  generalize (s.currentPage - 1) * s.pageSize = start at hnn hlt ⊢
  rw [if_neg (by omega), if_neg (by omega)]
  rw [min_eq_left (by omega : start ≤ (s.filteredProducts.length : Int))]

/-- C10: for every state with `pageSize ≥ 1`, at least one matching product and
`1 ≤ currentPage ≤ ceil(len(filteredProducts) / pageSize)`, the ordinals `startItem` and
`endItem` of `updatePaginationInfo` are the 1-based inclusive bounds of the slice of
`renderTable`: `1 ≤ startItem ≤ endItem ≤ len`, the slice is `filteredProducts` from position
`startItem` to position `endItem` (its element number `i` is the element of `filteredProducts`
at 0-based index `startItem - 1 + i`), it has `endItem - startItem + 1` elements, the reported
total is `len(filteredProducts)`, and the table shows the slice. -/
theorem updatePaginationInfo_bounds (s : State) (hps : 1 ≤ s.pageSize)
    (_hne : s.filteredProducts ≠ []) (h1 : 1 ≤ s.currentPage)
    (h2 : s.currentPage ≤ ⌈(s.filteredProducts.length : ℚ) / (s.pageSize : ℚ)⌉) :
    1 ≤ (updatePaginationInfo s).startItem ∧
    (updatePaginationInfo s).startItem ≤ (updatePaginationInfo s).endItem ∧
    (updatePaginationInfo s).endItem ≤ s.filteredProducts.length ∧
    pageProducts s =
      (s.filteredProducts.drop ((updatePaginationInfo s).startItem - 1).toNat).take
        ((updatePaginationInfo s).endItem - (updatePaginationInfo s).startItem + 1).toNat ∧
    ((pageProducts s).length : Int) =
      (updatePaginationInfo s).endItem - (updatePaginationInfo s).startItem + 1 ∧
    (∀ i : Nat, i < (pageProducts s).length →
      (pageProducts s)[i]? =
        s.filteredProducts[((updatePaginationInfo s).startItem - 1).toNat + i]?) ∧
    (updatePaginationInfo s).total = s.filteredProducts.length ∧
    renderTable s = TableBody.rows (pageProducts s) := by
  have hlt : (s.currentPage - 1) * s.pageSize < s.filteredProducts.length :=
    (le_ceil_div_iff _ _ _ (by omega)).mp h2
  have hnn : 0 ≤ (s.currentPage - 1) * s.pageSize := mul_nonneg (by omega) (by omega)
  have hmul : s.currentPage * s.pageSize = (s.currentPage - 1) * s.pageSize + s.pageSize := by ring
  have hslice := pageProducts_eq s hps h1 hlt
  have hstart : (updatePaginationInfo s).startItem = (s.currentPage - 1) * s.pageSize + 1 := rfl
  have hend : (updatePaginationInfo s).endItem
      = min (s.currentPage * s.pageSize) (s.filteredProducts.length : Int) := rfl
  have hlen : ((pageProducts s).length : Int) =
      min (s.currentPage * s.pageSize) (s.filteredProducts.length : Int)
        - (s.currentPage - 1) * s.pageSize := by
    rw [hslice, List.length_take, List.length_drop, hmul]
    generalize (s.currentPage - 1) * s.pageSize = start at hnn hlt ⊢
    omega
  have hpos : 0 < (pageProducts s).length := by
    have : (0 : Int) < ((pageProducts s).length : Int) := by
      rw [hlen, hmul]
      generalize (s.currentPage - 1) * s.pageSize = start at hnn hlt ⊢
      omega
    omega
  refine ⟨?_, ?_, ?_, ?_, ?_, ?_, rfl, ?_⟩
  · rw [hstart]; omega
  · rw [hstart, hend, hmul]
    generalize (s.currentPage - 1) * s.pageSize = start at hnn hlt ⊢
    omega
  · rw [hend]; exact min_le_right _ _
  · rw [hslice, hstart, hend]
    congr 2
    · omega
    · omega
  · rw [hlen, hstart, hend]; omega
  · intro i hi
    have hi2 : i < (min (s.currentPage * s.pageSize) (s.filteredProducts.length : Int)
          - (s.currentPage - 1) * s.pageSize).toNat := by
      have : (i : Int) < ((pageProducts s).length : Int) := by exact_mod_cast hi
      rw [hlen] at this
      omega
    rw [hslice, List.getElem?_take_of_lt hi2, List.getElem?_drop, hstart]
    congr 2
    omega
  · unfold renderTable
    rw [if_neg (by omega)]

/-- Instance of `updatePaginationInfo_bounds`: 25 products loaded into the initial state, page
size 10, page 1: there are 3 pages, the slice is the first ten products and the summary reads
"1-10" of 25. -/
theorem updatePaginationInfo_bounds_witness :
    (1 ≤ loaded25.pageSize ∧ loaded25.filteredProducts ≠ [] ∧ 1 ≤ loaded25.currentPage) ∧
    (pageProducts loaded25 =
      (loaded25.filteredProducts.drop ((updatePaginationInfo loaded25).startItem - 1).toNat).take
        ((updatePaginationInfo loaded25).endItem
          - (updatePaginationInfo loaded25).startItem + 1).toNat) ∧
    (updatePaginationInfo loaded25
      = { totalPages := JSNum.int 3, startItem := 1, endItem := 10, total := 25,
          pageInfo := "Trang 1 / 3",
          productCount := "Hiển thị 1-10 trong tổng số 25 sản phẩm",
          prevDisabled := true, nextDisabled := false }) ∧
    pageProducts loaded25 = catalog 10 :=
  ⟨⟨by decide, by decide, by decide⟩,
   (updatePaginationInfo_bounds loaded25 (by decide) (by decide) (by decide)
      ((le_ceil_div_iff 1 25 10 (by decide)).mpr (by decide))).2.2.2.1,
   by decide, by decide⟩

/-! ## Summary of an empty result -/

/-- The slice of an empty list is empty. -/
theorem jsSlice_nil {α : Type} (start stop : Int) : jsSlice ([] : List α) start stop = [] := by
  simp [jsSlice]

/-- C11 (as the code has it): when a search matches no product (`filteredProducts` is empty
after `handleSearch`), the visible slice is empty, `renderTable` shows the "no products found"
row, and the summary of `updatePaginationInfo` reports first ordinal 1 and total 0; for
`pageSize ≥ 0` the last ordinal is 0, so the text reads "1-0" of 0. -/
theorem updatePaginationInfo_no_match (h : Host) (s : State) (input : String)
    (hnone : (handleSearch h s input).filteredProducts = []) :
    pageProducts (handleSearch h s input) = [] ∧
    renderTable (handleSearch h s input) = TableBody.noData ∧
    (updatePaginationInfo (handleSearch h s input)).startItem = 1 ∧
    (updatePaginationInfo (handleSearch h s input)).total = 0 ∧
    (0 ≤ s.pageSize →
      (updatePaginationInfo (handleSearch h s input)).endItem = 0 ∧
      (updatePaginationInfo (handleSearch h s input)).productCount
        = "Hiển thị 1-0 trong tổng số 0 sản phẩm") := by
  obtain ⟨_, hp, _, hc⟩ := handleSearch_frame h s input
  have hslice : pageProducts (handleSearch h s input) = [] := by
    unfold pageProducts
    rw [hnone]
    exact jsSlice_nil _ _
  have hstart : (updatePaginationInfo (handleSearch h s input)).startItem = 1 := by
    show ((handleSearch h s input).currentPage - 1) * (handleSearch h s input).pageSize + 1 = 1
    rw [hc]; simp
  have hend : 0 ≤ s.pageSize → (updatePaginationInfo (handleSearch h s input)).endItem = 0 := by
    intro hps
    show min ((handleSearch h s input).currentPage * (handleSearch h s input).pageSize)
      ((handleSearch h s input).filteredProducts.length : Int) = 0
    rw [hc, hp, hnone]
    simp only [List.length_nil, Nat.cast_zero, one_mul]
    exact min_eq_right hps
  refine ⟨hslice, ?_, hstart, ?_, ?_⟩
  · unfold renderTable
    rw [hslice]; rfl
  · show (handleSearch h s input).filteredProducts.length = 0
    rw [hnone]; rfl
  · intro hps
    refine ⟨hend hps, ?_⟩
    have h1 := hend hps
    show "Hiển thị " ++ toString (updatePaginationInfo (handleSearch h s input)).startItem ++ "-" ++
      toString (updatePaginationInfo (handleSearch h s input)).endItem ++
      " trong tổng số " ++ toString (handleSearch h s input).filteredProducts.length ++ " sản phẩm" = _
    rw [hstart, h1, hnone]
    decide

/-- Instance of `updatePaginationInfo_no_match`: 25 products loaded, search "zzz". -/
theorem updatePaginationInfo_no_match_witness :
    (handleSearch sampleHost loaded25 "zzz").filteredProducts = [] ∧
    (0 : Int) ≤ loaded25.pageSize ∧
    (updatePaginationInfo (handleSearch sampleHost loaded25 "zzz")).startItem = 1 ∧
    (updatePaginationInfo (handleSearch sampleHost loaded25 "zzz")).endItem = 0 :=
  ⟨by decide, by decide,
   (updatePaginationInfo_no_match sampleHost loaded25 "zzz" (by decide)).2.2.1,
   ((updatePaginationInfo_no_match sampleHost loaded25 "zzz" (by decide)).2.2.2.2
      (by decide)).1⟩

/-- C11 (as stated) fails: load 3 products and search "zzz".  Nothing matches, the slice is
empty, and the summary reports first ordinal 1, not 0: the text reads "1-0" of 0. -/
theorem updatePaginationInfo_no_match_counterexample :
    (run sampleHost initialState noMatchEvents).filteredProducts = [] ∧
    pageProducts (run sampleHost initialState noMatchEvents) = [] ∧
    updatePaginationInfo (run sampleHost initialState noMatchEvents)
      = { totalPages := JSNum.int 0, startItem := 1, endItem := 0, total := 0,
          pageInfo := "Trang 1 / 0",
          productCount := "Hiển thị 1-0 trong tổng số 0 sản phẩm",
          prevDisabled := true, nextDisabled := true } ∧
    (updatePaginationInfo (run sampleHost initialState noMatchEvents)).startItem ≠ 0 := by
  decide

/-! ## Frame of `allProducts` in the value-level model -/

/-- In the value-level model no view operation changes `allProducts`, and so no run without a
successful load does. -/
theorem allProducts_unchanged (h : Host) (s : State) :
    (∀ input : String, (handleSearch h s input).allProducts = s.allProducts) ∧
    (∀ sortType : Option String, (applySorting h s sortType).allProducts = s.allProducts) ∧
    (goToNextPage s).allProducts = s.allProducts ∧
    (goToPrevPage s).allProducts = s.allProducts ∧
    (∀ selected : Int, (changePageSize s selected).allProducts = s.allProducts) ∧
    (∀ events : List Event, (∀ e ∈ events, ∀ data, e ≠ Event.load (FetchOutcome.ok data)) →
      (run h s events).allProducts = s.allProducts) := by
  refine ⟨fun input => (handleSearch_frame h s input).1, fun _ => rfl,
    (goToNextPage_frame s).1, (goToPrevPage_frame s).1, fun _ => rfl, ?_⟩
  intro events
  induction events using List.reverseRecOn with
  | nil => intro _; rfl
  | append_singleton es e ih =>
    intro hok
    rw [run_append_one]
    have ih1 := ih (fun x hx => hok x (List.mem_append_left _ hx))
    have he := hok e (List.mem_append_right _ (List.mem_singleton_self e))
    rw [← ih1]
    cases e with
    | load outcome =>
      cases outcome with
      | ok data => exact absurd rfl (he data)
      | networkError m => rfl
      | httpError m => rfl
      | decodeError m => rfl
    | search input => exact (handleSearch_frame h _ input).1
    | sort sortType => rfl
    | nextPage => exact (goToNextPage_frame _).1
    | prevPage => exact (goToPrevPage_frame _).1
    | resize n => rfl

/-! ## The none sort key -/

/-- C13 (as the code has it): `applySorting` with `null`, or with any value that is not one of
the four sort keys, leaves `filteredProducts` exactly as it was: it only records the key and
returns to page 1.  Load order comes back with the next `handleSearch` after
`applySorting(null)`, which lists the matching products in the order they have in
`allProducts`. -/
theorem applySorting_unrecognised (h : Host) (s : State) (sortType : Option String)
    (h1 : sortType ≠ some "priceAsc") (h2 : sortType ≠ some "priceDesc")
    (h3 : sortType ≠ some "nameAsc") (h4 : sortType ≠ some "nameDesc") :
    applySorting h s sortType = { s with currentSort := sortType, currentPage := 1 } ∧
    (∀ input : String,
      (handleSearch h (applySorting h s none) input).filteredProducts
        = s.allProducts.filter (fun product =>
            includes (h.toLowerCase product.title) (jsTrim (h.toLowerCase input))) ∧
      (handleSearch h (applySorting h s none) input).filteredProducts.Sublist s.allProducts) := by
  constructor
  · unfold applySorting
    simp only [h1, h2, h3, h4, if_false]
  · intro input
    have heq : (handleSearch h (applySorting h s none) input).filteredProducts
        = s.allProducts.filter (fun product =>
            includes (h.toLowerCase product.title) (jsTrim (h.toLowerCase input))) := by
      rw [handleSearch_eq]
      rfl
    exact ⟨heq, heq ▸ List.filter_sublist _⟩

/-- Instance of `applySorting_unrecognised`: `applySorting(null)` on 25 loaded products. -/
theorem applySorting_unrecognised_witness :
    ((none : Option String) ≠ some "priceAsc" ∧ (none : Option String) ≠ some "priceDesc" ∧
      (none : Option String) ≠ some "nameAsc" ∧ (none : Option String) ≠ some "nameDesc") ∧
    applySorting sampleHost loaded25 none = loaded25 :=
  ⟨⟨by decide, by decide, by decide, by decide⟩,
   (applySorting_unrecognised sampleHost loaded25 none (by decide) (by decide) (by decide)
      (by decide)).1⟩

/-- C13 (as stated) fails: load products priced 0, 1, 2, sort by price descending, then call
`applySorting(null)`.  The sort key is none, yet `filteredProducts` is still 2, 1, 0: not the
order of `allProducts`. -/
theorem applySorting_none_counterexample :
    (run sampleHost initialState priceThenNoneEvents).allProducts
      = [mkProduct 0 "item" 0, mkProduct 1 "item" 1, mkProduct 2 "item" 2] ∧
    (run sampleHost initialState priceThenNoneEvents).currentSort = none ∧
    (run sampleHost initialState priceThenNoneEvents).filteredProducts
      = [mkProduct 2 "item" 2, mkProduct 1 "item" 1, mkProduct 0 "item" 0] ∧
    ¬ (run sampleHost initialState priceThenNoneEvents).filteredProducts.Sublist
      (run sampleHost initialState priceThenNoneEvents).allProducts := by
  decide

/-! ## Sorting by name -/

/-- The comparator of `foldHost` has an antisymmetric sign. -/
theorem foldHost_sym (a b : String) :
    0 ≤ foldHost.localeCompare a b ↔ foldHost.localeCompare b a ≤ 0 := by
  simp only [foldHost]
  rcases lt_trichotomy (a.data.map Char.toLower) (b.data.map Char.toLower) with hlt | heq | hgt
  · have := lt_asymm hlt
    simp [hlt, this]
  · simp [heq]
  · have := lt_asymm hgt
    simp [hgt, this]

/-- The comparator of `foldHost` is transitive. -/
theorem foldHost_trans (a b c : String) (hab : foldHost.localeCompare a b ≤ 0)
    (hbc : foldHost.localeCompare b c ≤ 0) : foldHost.localeCompare a c ≤ 0 := by
  simp only [foldHost] at hab hbc ⊢
  have h1 : ¬ b.data.map Char.toLower < a.data.map Char.toLower := by
    intro hc
    have := lt_asymm hc
    simp [hc, this] at hab
  have h2 : ¬ c.data.map Char.toLower < b.data.map Char.toLower := by
    intro hc
    have := lt_asymm hc
    simp [hc, this] at hbc
  have h3 : ¬ c.data.map Char.toLower < a.data.map Char.toLower := by
    intro hc
    exact h2 (lt_of_lt_of_le hc (not_lt.mp h1))
  split_ifs <;> simp

/-- C14: for every list and every `localeCompare` that is a total preorder comparator (its sign
is antisymmetric, `cmp a b ≥ 0` exactly when `cmp b a ≤ 0`, and `cmp a b ≤ 0` is transitive),
after `applySorting("nameAsc")` every pair `a` before `b` of `filteredProducts`, in particular
every adjacent pair, has `cmp(a.title, b.title) ≤ 0`, after `applySorting("nameDesc")` it has
`cmp(a.title, b.title) ≥ 0`, and both results are permutations of the list before the call. -/
theorem applySorting_name_sorted (h : Host)
    (hsym : ∀ a b : String, 0 ≤ h.localeCompare a b ↔ h.localeCompare b a ≤ 0)
    (htrans : ∀ a b c : String, h.localeCompare a b ≤ 0 → h.localeCompare b c ≤ 0 →
      h.localeCompare a c ≤ 0)
    (s : State) :
    (applySorting h s (some "nameAsc")).filteredProducts.Pairwise
        (fun a b => h.localeCompare a.title b.title ≤ 0) ∧
    (applySorting h s (some "nameAsc")).filteredProducts.Chain'
        (fun a b => h.localeCompare a.title b.title ≤ 0) ∧
    (applySorting h s (some "nameAsc")).filteredProducts.Perm s.filteredProducts ∧
    (applySorting h s (some "nameDesc")).filteredProducts.Pairwise
        (fun a b => 0 ≤ h.localeCompare a.title b.title) ∧
    (applySorting h s (some "nameDesc")).filteredProducts.Chain'
        (fun a b => 0 ≤ h.localeCompare a.title b.title) ∧
    (applySorting h s (some "nameDesc")).filteredProducts.Perm s.filteredProducts := by
  have htotal : ∀ a b : String, h.localeCompare a b ≤ 0 ∨ h.localeCompare b a ≤ 0 := by
    intro a b
    by_cases hab : h.localeCompare a b ≤ 0
    · exact Or.inl hab
    · exact Or.inr ((hsym a b).mp (by omega))
  have hasc : (applySorting h s (some "nameAsc")).filteredProducts.Pairwise
      (fun a b => h.localeCompare a.title b.title ≤ 0) := by
    have heq : (applySorting h s (some "nameAsc")).filteredProducts
        = jsSort (fun a b : Product => h.localeCompare a.title b.title) s.filteredProducts := by
      simp [applySorting]
    rw [heq]
    exact jsSort_sorted (fun a b : Product => h.localeCompare a.title b.title)
      (fun a b => htotal a.title b.title) (fun a b c => htrans a.title b.title c.title)
      s.filteredProducts
  have hdesc : (applySorting h s (some "nameDesc")).filteredProducts.Pairwise
      (fun a b => 0 ≤ h.localeCompare a.title b.title) := by
    have heq : (applySorting h s (some "nameDesc")).filteredProducts
        = jsSort (fun a b : Product => h.localeCompare b.title a.title) s.filteredProducts := by
      simp [applySorting]
    rw [heq]
    have hs := jsSort_sorted (fun a b : Product => h.localeCompare b.title a.title)
      (fun a b => htotal b.title a.title)
      (fun a b c hab hbc => htrans c.title b.title a.title hbc hab) s.filteredProducts
    exact hs.imp (fun hab => (hsym _ _).mpr hab)
  exact ⟨hasc, hasc.chain', applySorting_perm h s _, hdesc, hdesc.chain', applySorting_perm h s _⟩

/-- Instance of `applySorting_name_sorted` with a case-insensitive comparator: `nameDesc` on
Apple, banana, Cherry gives Cherry, banana, Apple. -/
theorem applySorting_name_sorted_witness :
    (∀ a b : String, 0 ≤ foldHost.localeCompare a b ↔ foldHost.localeCompare b a ≤ 0) ∧
    (∀ a b c : String, foldHost.localeCompare a b ≤ 0 → foldHost.localeCompare b c ≤ 0 →
      foldHost.localeCompare a c ≤ 0) ∧
    (applySorting foldHost { initialState with filteredProducts := mixedCaseTitles }
        (some "nameDesc")).filteredProducts.Pairwise
      (fun a b => 0 ≤ foldHost.localeCompare a.title b.title) ∧
    (applySorting foldHost { initialState with filteredProducts := mixedCaseTitles }
        (some "nameDesc")).filteredProducts.map (fun p => p.title)
      = ["Cherry", "banana", "Apple"] ∧
    (applySorting foldHost { initialState with filteredProducts := mixedCaseTitles }
        (some "nameAsc")).filteredProducts.map (fun p => p.title)
      = ["Apple", "banana", "Cherry"] :=
  ⟨foldHost_sym, foldHost_trans,
   (applySorting_name_sorted foldHost foldHost_sym foldHost_trans
      { initialState with filteredProducts := mixedCaseTitles }).2.2.2.1,
   by decide, by decide⟩

/-! ## Pages as a partition -/

/-- A slice with non-negative bounds `a` and `a + b` drops `a` elements and takes `b`. -/
theorem jsSlice_of_nonneg {α : Type} (xs : List α) (a b : Int) (ha : 0 ≤ a) (hb : 0 ≤ b) :
    jsSlice xs a (a + b) = (xs.drop a.toNat).take b.toNat := by
  unfold jsSlice
  simp only
  rw [if_neg (by omega), if_neg (by omega)]
  by_cases hle : a ≤ (xs.length : Int)
  · rw [min_eq_left hle, List.take_eq_take, List.length_drop]
    omega
  · have hdrop : xs.drop a.toNat = [] := List.drop_eq_nil_of_le (by omega)
    have hdrop2 : xs.drop (min a (xs.length : Int)).toNat = [] :=
      List.drop_eq_nil_of_le (by omega)
    rw [hdrop, hdrop2]
    simp

/-- For `pageSize ≥ 1` and a page number `c ≥ 1`, the slice of page `c` is the `pageSize`
elements after the first `(c - 1) * pageSize`. -/
theorem pageProducts_take_drop (s : State) (hps : 1 ≤ s.pageSize) (h1 : 1 ≤ s.currentPage) :
    pageProducts s =
      (s.filteredProducts.drop ((s.currentPage - 1).toNat * s.pageSize.toNat)).take
        s.pageSize.toNat := by
  have hnn : 0 ≤ (s.currentPage - 1) * s.pageSize := mul_nonneg (by omega) (by omega)
  have hnat : ((s.currentPage - 1) * s.pageSize).toNat
      = (s.currentPage - 1).toNat * s.pageSize.toNat := by
    have hc : ((s.currentPage - 1).toNat : Int) = s.currentPage - 1 := Int.toNat_of_nonneg (by omega)
    have hp : (s.pageSize.toNat : Int) = s.pageSize := Int.toNat_of_nonneg (by omega)
    have : (((s.currentPage - 1).toNat * s.pageSize.toNat : Nat) : Int)
        = (s.currentPage - 1) * s.pageSize := by
      push_cast
      rw [hc, hp]
    omega
  unfold pageProducts
  simp only
  rw [jsSlice_of_nonneg _ _ _ hnn (by omega), hnat]

/-- Consecutive chunks of `p` elements, `n` of them, make up the first `n * p` elements. -/
theorem flatten_chunks {α : Type} (xs : List α) (p n : Nat) :
    ((List.range n).map (fun i => (xs.drop (i * p)).take p)).flatten = xs.take (n * p) := by
  induction n with
  | zero => simp
  | succ n ih =>
    rw [List.range_succ, List.map_append, List.flatten_append, ih, Nat.succ_mul, List.take_add]
    simp

/-- C15: for `pageSize ≥ 1` the pages partition the list: the slices of `renderTable` for
`currentPage = 1, ..., ceil(len(filteredProducts) / pageSize)`, concatenated, are
`filteredProducts`; every slice has at most `pageSize` elements; every slice before the last page
has exactly `pageSize`; and when `0 < len(filteredProducts) ≤ pageSize` there is one page, which
holds all products. -/
theorem pages_partition (s : State) (hps : 1 ≤ s.pageSize) :
    ((List.range ⌈(s.filteredProducts.length : ℚ) / (s.pageSize : ℚ)⌉.toNat).map
        (fun i : Nat => pageProducts { s with currentPage := (i : Int) + 1 })).flatten
      = s.filteredProducts ∧
    (∀ c : Int, 1 ≤ c →
      ((pageProducts { s with currentPage := c }).length : Int) ≤ s.pageSize) ∧
    (∀ c : Int, 1 ≤ c → c < ⌈(s.filteredProducts.length : ℚ) / (s.pageSize : ℚ)⌉ →
      ((pageProducts { s with currentPage := c }).length : Int) = s.pageSize) ∧
    (s.filteredProducts ≠ [] → (s.filteredProducts.length : Int) ≤ s.pageSize →
      ⌈(s.filteredProducts.length : ℚ) / (s.pageSize : ℚ)⌉ = 1 ∧
      pageProducts { s with currentPage := 1 } = s.filteredProducts) := by
  have hp : (s.pageSize.toNat : Int) = s.pageSize := Int.toNat_of_nonneg (by omega)
  have hpage : ∀ c : Int, 1 ≤ c → pageProducts { s with currentPage := c }
      = (s.filteredProducts.drop ((c - 1).toNat * s.pageSize.toNat)).take s.pageSize.toNat :=
    fun c hc => pageProducts_take_drop { s with currentPage := c } hps hc
  have hT0 : 0 ≤ ⌈(s.filteredProducts.length : ℚ) / (s.pageSize : ℚ)⌉ := by
    have := (le_ceil_div_iff 0 s.filteredProducts.length s.pageSize (by omega)).mpr (by
      have : (0 - 1) * s.pageSize < 0 := by omega
      omega)
    exact this
  refine ⟨?_, ?_, ?_, ?_⟩
  · have hfun : (fun i : Nat => pageProducts { s with currentPage := (i : Int) + 1 })
        = (fun i : Nat => (s.filteredProducts.drop (i * s.pageSize.toNat)).take s.pageSize.toNat) := by
      funext i
      rw [hpage _ (by omega)]
      congr 3
      omega
    rw [hfun, flatten_chunks]
    apply List.take_of_length_le
    -- the pages cover the list: not (T + 1 ≤ ceil) gives len ≤ T * pageSize
    have hcover : ¬ ((⌈(s.filteredProducts.length : ℚ) / (s.pageSize : ℚ)⌉ + 1 - 1) * s.pageSize
        < s.filteredProducts.length) := by
      rw [← le_ceil_div_iff _ _ _ (by omega : 0 < s.pageSize)]
      omega
    have hcast : ((⌈(s.filteredProducts.length : ℚ) / (s.pageSize : ℚ)⌉.toNat * s.pageSize.toNat
        : Nat) : Int) = ⌈(s.filteredProducts.length : ℚ) / (s.pageSize : ℚ)⌉ * s.pageSize := by
      push_cast
      rw [hp, Int.toNat_of_nonneg hT0]
    have hsimp : ⌈(s.filteredProducts.length : ℚ) / (s.pageSize : ℚ)⌉ + 1 - 1
        = ⌈(s.filteredProducts.length : ℚ) / (s.pageSize : ℚ)⌉ := by omega
    rw [hsimp] at hcover
    omega
  · intro c hc
    rw [hpage c hc, List.length_take]
    omega
  · intro c hc hlt
    have hlt2 : (c + 1 - 1) * s.pageSize < s.filteredProducts.length :=
      (le_ceil_div_iff _ _ _ (by omega)).mp (by omega)
    have hcast : (((c - 1).toNat * s.pageSize.toNat : Nat) : Int) = (c - 1) * s.pageSize := by
      push_cast
      rw [hp, Int.toNat_of_nonneg (by omega)]
    have hexp : (c + 1 - 1) * s.pageSize = (c - 1) * s.pageSize + s.pageSize := by ring
    rw [hpage c hc, List.length_take, List.length_drop]
    rw [hexp] at hlt2
    generalize (c - 1) * s.pageSize = start at hcast hlt2
    omega
  · intro hne hle
    have hlen : 0 < s.filteredProducts.length := List.length_pos.mpr hne
    constructor
    · apply le_antisymm
      · by_contra hc
        have h2 : (2 : Int) ≤ ⌈(s.filteredProducts.length : ℚ) / (s.pageSize : ℚ)⌉ := by omega
        have := (le_ceil_div_iff 2 _ _ (by omega : 0 < s.pageSize)).mp h2
        omega
      · exact ceil_div_pos_of_pos _ _ (by omega) hlen
    · rw [hpage 1 (le_refl _)]
      simp only [sub_self, Int.toNat_zero, zero_mul, List.drop_zero]
      apply List.take_of_length_le
      omega

/-- Instance of `pages_partition`: 3 products, page size 10: one page with all three. -/
theorem pages_partition_witness :
    (1 : Int) ≤ loaded3.pageSize ∧ loaded3.filteredProducts ≠ [] ∧
    (loaded3.filteredProducts.length : Int) ≤ loaded3.pageSize ∧
    (⌈(loaded3.filteredProducts.length : ℚ) / (loaded3.pageSize : ℚ)⌉ = 1 ∧
      pageProducts { loaded3 with currentPage := 1 } = loaded3.filteredProducts) ∧
    pageProducts loaded3 = catalog 3 ∧
    totalPages loaded3 = JSNum.int 1 :=
  ⟨by decide, by decide, by decide,
   (pages_partition loaded3 (by decide)).2.2.2 (by decide) (by decide),
   by decide, by decide⟩

/-! ## Failed load -/

/-- C16: when the request of `getAllProducts` fails (network error, non-OK status, or
`response.json()` rejecting), the five state variables are what they were before the call and
the error banner is shown with the failure message. -/
theorem getAllProducts_failure (s : State) (outcome : FetchOutcome)
    (hfail : ∀ data, outcome ≠ FetchOutcome.ok data) :
    (getAllProducts s outcome).state = s ∧
    (∃ message : String, (getAllProducts s outcome).errorText = some (errorBanner message)) ∧
    (∀ message : String, getAllProducts s (FetchOutcome.networkError message)
      = { state := s, errorText := some (errorBanner message) }) ∧
    (∀ status : Nat, getAllProducts s (FetchOutcome.httpError status)
      = { state := s,
          errorText := some (errorBanner ("HTTP error! status: " ++ toString status)) }) ∧
    (∀ message : String, getAllProducts s (FetchOutcome.decodeError message)
      = { state := s, errorText := some (errorBanner message) }) := by
  refine ⟨?_, ?_, fun _ => rfl, fun _ => rfl, fun _ => rfl⟩
  · cases outcome with
    | ok data => exact absurd rfl (hfail data)
    | networkError m => rfl
    | httpError m => rfl
    | decodeError m => rfl
  · cases outcome with
    | ok data => exact absurd rfl (hfail data)
    | networkError m => exact ⟨m, rfl⟩
    | httpError m => exact ⟨_, rfl⟩
    | decodeError m => exact ⟨m, rfl⟩

/-- Instance of `getAllProducts_failure`: a 404 answer on page 2 of a sorted list of 25
products. -/
theorem getAllProducts_failure_witness :
    (∀ data, FetchOutcome.httpError 404 ≠ FetchOutcome.ok data) ∧
    (getAllProducts { loaded25 with currentPage := 2, currentSort := some "priceAsc" }
      (FetchOutcome.httpError 404)).state
      = { loaded25 with currentPage := 2, currentSort := some "priceAsc" } ∧
    (getAllProducts { loaded25 with currentPage := 2, currentSort := some "priceAsc" }
      (FetchOutcome.httpError 404)).errorText
      = some "Lỗi khi tải dữ liệu: HTTP error! status: 404. Vui lòng thử lại sau!" :=
  ⟨fun _ hc => FetchOutcome.noConfusion hc,
   (getAllProducts_failure { loaded25 with currentPage := 2, currentSort := some "priceAsc" }
      (FetchOutcome.httpError 404) (fun _ hc => FetchOutcome.noConfusion hc)).1,
   by decide⟩

/-! ## Search and sort in either order -/

/-- C17: from a state with no active sort (`currentSort` is `null`, as right after the first
load), for every search input and every key among `priceAsc`, `priceDesc`, `nameAsc`,
`nameDesc`: `handleSearch` followed by `applySorting(key)` gives the same state as
`applySorting(key)` followed by `handleSearch`, and in both the list is `filteredSorted`: the
stable sort by the key of `allProducts` filtered, in load order, by the normalised term. -/
theorem search_sort_commute (h : Host) (s : State) (input : String) (key : String)
    (hfresh : truthy s.currentSort = false)
    (hkey : key = "priceAsc" ∨ key = "priceDesc" ∨ key = "nameAsc" ∨ key = "nameDesc") :
    applySorting h (handleSearch h s input) (some key)
      = handleSearch h (applySorting h s (some key)) input ∧
    (applySorting h (handleSearch h s input) (some key)).filteredProducts
      = filteredSorted h s.allProducts (jsTrim (h.toLowerCase input)) (some key) ∧
    (handleSearch h (applySorting h s (some key)) input).filteredProducts
      = filteredSorted h s.allProducts (jsTrim (h.toLowerCase input)) (some key) := by
  have htruthy : truthy (some key) = true := by
    rcases hkey with rfl | rfl | rfl | rfl <;> decide
  have hright : handleSearch h (applySorting h s (some key)) input
      = applySorting h
          { s with
            filteredProducts :=
              s.allProducts.filter (fun product =>
                includes (h.toLowerCase product.title) (jsTrim (h.toLowerCase input))) }
          (some key) := by
    rw [handleSearch_eq]
    have hcs : (applySorting h s (some key)).currentSort = some key := rfl
    rw [hcs, if_pos htruthy]
    rfl
  have hleft : applySorting h (handleSearch h s input) (some key)
      = applySorting h
          { s with
            filteredProducts :=
              s.allProducts.filter (fun product =>
                includes (h.toLowerCase product.title) (jsTrim (h.toLowerCase input))) }
          (some key) := by
    rw [handleSearch_eq, if_neg (by rw [hfresh]; decide)]
    rfl
  have hspec : (applySorting h
          { s with
            filteredProducts :=
              s.allProducts.filter (fun product =>
                includes (h.toLowerCase product.title) (jsTrim (h.toLowerCase input))) }
          (some key)).filteredProducts
      = filteredSorted h s.allProducts (jsTrim (h.toLowerCase input)) (some key) := by
    rcases hkey with rfl | rfl | rfl | rfl <;> simp [applySorting, filteredSorted]
  refine ⟨by rw [hleft, hright], ?_, ?_⟩
  · rw [hleft, hspec]
  · rw [hright, hspec]

/-- Instance of `search_sort_commute`: 3 products just loaded, input "ITEM", key
`priceDesc`. -/
theorem search_sort_commute_witness :
    truthy loaded3.currentSort = false ∧
    ("priceDesc" = "priceAsc" ∨ "priceDesc" = "priceDesc" ∨ "priceDesc" = "nameAsc" ∨
      "priceDesc" = "nameDesc") ∧
    applySorting sampleHost (handleSearch sampleHost loaded3 "ITEM") (some "priceDesc")
      = handleSearch sampleHost (applySorting sampleHost loaded3 (some "priceDesc")) "ITEM" ∧
    (handleSearch sampleHost (applySorting sampleHost loaded3 (some "priceDesc")) "ITEM").filteredProducts
      = [mkProduct 2 "item" 2, mkProduct 1 "item" 1, mkProduct 0 "item" 0] :=
  ⟨by decide, by decide,
   (search_sort_commute sampleHost loaded3 "ITEM" "priceDesc" (by decide) (by decide)).1,
   by decide⟩

/-! ## Blank pages -/

/-- C18: in every state with `pageSize ≥ 1` and
`1 ≤ currentPage ≤ max(1, ceil(len(filteredProducts) / pageSize))`, `renderTable` shows the
"no products found" row, that is the page slice is empty, exactly when `filteredProducts` is
empty. -/
theorem renderTable_noData_iff (s : State) (hps : 1 ≤ s.pageSize) (h1 : 1 ≤ s.currentPage)
    (h2 : s.currentPage ≤ max 1 ⌈(s.filteredProducts.length : ℚ) / (s.pageSize : ℚ)⌉) :
    (renderTable s = TableBody.noData ↔ s.filteredProducts = []) ∧
    (pageProducts s = [] ↔ s.filteredProducts = []) := by
  have hslice : pageProducts s = [] ↔ s.filteredProducts = [] := by
    constructor
    · intro hempty
      by_contra hne
      have hlen : 0 < s.filteredProducts.length := List.length_pos.mpr hne
      have hT := ceil_div_pos_of_pos s.filteredProducts.length s.pageSize (by omega) hlen
      have hle : s.currentPage ≤ ⌈(s.filteredProducts.length : ℚ) / (s.pageSize : ℚ)⌉ := by
        rwa [max_eq_right hT] at h2
      have hlt := (le_ceil_div_iff _ _ _ (by omega : 0 < s.pageSize)).mp hle
      have hcast : (((s.currentPage - 1).toNat * s.pageSize.toNat : Nat) : Int)
          = (s.currentPage - 1) * s.pageSize := by
        push_cast
        rw [Int.toNat_of_nonneg (by omega : 0 ≤ s.pageSize),
          Int.toNat_of_nonneg (by omega : 0 ≤ s.currentPage - 1)]
      have hl : (pageProducts s).length = 0 := by rw [hempty]; rfl
      rw [pageProducts_take_drop s hps h1, List.length_take, List.length_drop] at hl
      generalize (s.currentPage - 1) * s.pageSize = start at hcast hlt
      omega
    · intro hnil
      unfold pageProducts
      rw [hnil]
      exact jsSlice_nil _ _
  refine ⟨?_, hslice⟩
  rw [← hslice]
  unfold renderTable
  constructor
  · intro hr
    by_contra hne
    rw [if_neg (fun hc => hne (List.length_eq_zero.mp hc))] at hr
    exact TableBody.noConfusion hr
  · intro hempty
    rw [hempty]; rfl

/-- Instance of `renderTable_noData_iff`: 25 products, page size 10, page 3: five rows, not
the "no products found" row. -/
theorem renderTable_noData_iff_witness :
    ((1 : Int) ≤ ({ loaded25 with currentPage := 3 } : State).pageSize ∧
      (1 : Int) ≤ ({ loaded25 with currentPage := 3 } : State).currentPage ∧
      ({ loaded25 with currentPage := 3 } : State).currentPage
        ≤ max 1 ⌈(((catalog 25).length : Nat) : ℚ) / ((10 : Int) : ℚ)⌉) ∧
    (renderTable { loaded25 with currentPage := 3 } = TableBody.noData ↔
      ({ loaded25 with currentPage := 3 } : State).filteredProducts = []) ∧
    (pageProducts { loaded25 with currentPage := 3 }).length = 5 :=
  have hle : ({ loaded25 with currentPage := 3 } : State).currentPage
      ≤ max 1 ⌈(((catalog 25).length : Nat) : ℚ) / ((10 : Int) : ℚ)⌉ :=
    le_max_of_le_right ((le_ceil_div_iff 3 25 10 (by decide)).mpr (by decide))
  ⟨⟨by decide, by decide, hle⟩,
   (renderTable_noData_iff { loaded25 with currentPage := 3 } (by decide) (by decide) hle).1,
   by decide⟩

/-! ## Clearing the search -/

/-- Trimming a string of white space only leaves the empty string. -/
theorem jsTrim_whiteSpace (input : String) (hws : ∀ c ∈ input.data, isJsWhiteSpace c = true) :
    jsTrim input = "" := by
  unfold jsTrim
  have h1 : input.data.dropWhile isJsWhiteSpace = [] := List.dropWhile_eq_nil_iff.mpr hws
  rw [h1]
  rfl

/-- C19: for an input that is empty or white space only (and which lower-casing leaves as it
is), `handleSearch` leaves `filteredProducts` a permutation of `allProducts`, equal to
`allProducts` when `currentSort` is `null`; the special-case branch agrees with the general
filter, since filtering `allProducts` with the empty term keeps every product; and the whole
state is the one obtained by putting `allProducts` in place of the filter. -/
theorem handleSearch_clear (h : Host) (s : State) (input : String)
    (hws : ∀ c ∈ input.data, isJsWhiteSpace c = true) (hlower : h.toLowerCase input = input) :
    (handleSearch h s input).filteredProducts.Perm s.allProducts ∧
    (s.currentSort = none → (handleSearch h s input).filteredProducts = s.allProducts) ∧
    s.allProducts
      = s.allProducts.filter (fun product => includes (h.toLowerCase product.title) "") ∧
    handleSearch h s input
      = { (if truthy s.currentSort = true
            then applySorting h { s with filteredProducts := s.allProducts } s.currentSort
            else { s with filteredProducts := s.allProducts }) with
          currentPage := 1 } := by
  have hterm : jsTrim (h.toLowerCase input) = "" := by
    rw [hlower]; exact jsTrim_whiteSpace input hws
  have hall : s.allProducts.filter (fun product => includes (h.toLowerCase product.title) "")
      = s.allProducts := by
    apply List.filter_eq_self.mpr
    intro a _
    simp [includes]
  have hbranch : handleSearch h s input
      = { (if truthy s.currentSort = true
            then applySorting h { s with filteredProducts := s.allProducts } s.currentSort
            else { s with filteredProducts := s.allProducts }) with
          currentPage := 1 } := by
    unfold handleSearch
    simp only [hterm, if_true]
  refine ⟨?_, ?_, hall.symm, hbranch⟩
  · have := handleSearch_perm_filter h s input
    rw [hterm, hall] at this
    exact this
  · intro hnone
    rw [hbranch, hnone]
    rfl

/-- Instance of `handleSearch_clear`: after a search without matches under an active
`priceDesc` sort, an input of two spaces brings back all three products, sorted. -/
theorem handleSearch_clear_witness :
    (∀ c ∈ "  ".data, isJsWhiteSpace c = true) ∧ sampleHost.toLowerCase "  " = "  " ∧
    (handleSearch sampleHost
      (handleSearch sampleHost { loaded3 with currentSort := some "priceDesc" } "zzz")
      "  ").filteredProducts.Perm (catalog 3) ∧
    (handleSearch sampleHost
      (handleSearch sampleHost { loaded3 with currentSort := some "priceDesc" } "zzz")
      "  ").filteredProducts = [mkProduct 2 "item" 2, mkProduct 1 "item" 1, mkProduct 0 "item" 0] :=
  ⟨by decide, by decide,
   (handleSearch_clear sampleHost
      (handleSearch sampleHost { loaded3 with currentSort := some "priceDesc" } "zzz") "  "
      (by decide) (by decide)).1,
   by decide⟩

/-! ## Arrays as objects: the view never changes the full list -/

/-- Reading the array that was just written. -/
theorem readArray_set_same (heap : List (List Product)) (ref : Nat) (arr : List Product)
    (href : ref < heap.length) : readArray (heap.set ref arr) ref = arr := by
  simp [readArray, href]

/-- Writing one array leaves every other array as it was. -/
theorem readArray_set_other (heap : List (List Product)) (ref other : Nat) (arr : List Product)
    (hne : ref ≠ other) : readArray (heap.set ref arr) other = readArray heap other := by
  simp [readArray, List.getElem?_set_ne hne]

/-- Creating arrays leaves the existing ones as they were. -/
theorem readArray_append_old (heap extra : List (List Product)) (ref : Nat)
    (href : ref < heap.length) : readArray (heap ++ extra) ref = readArray heap ref := by
  simp [readArray, List.getElem?_append_left href]

/-- The first array created is read back at the next free reference. -/
theorem readArray_append_new (heap : List (List Product)) (arr : List Product)
    (extra : List (List Product)) :
    readArray (heap ++ arr :: extra) heap.length = arr := by
  unfold readArray
  rw [List.getElem?_append_right (le_refl _)]
  simp

/-- The second of two arrays created is read back at the reference after the next free one. -/
theorem readArray_append_second (heap : List (List Product)) (a b : List Product) :
    readArray (heap ++ [a, b]) (heap.length + 1) = b := by
  unfold readArray
  rw [List.getElem?_append_right (Nat.le_succ _)]
  simp

/-- Writing an array at the reference held by `filteredProducts`, in a state whose two variables
refer to different arrays, changes `filteredProducts` and nothing that `allProducts` reads. -/
theorem deref_set_filtered (s : RefState) (hsep : s.separate) (arr : List Product)
    (sortType : Option String) :
    ({ s with heap := s.heap.set s.filteredProducts arr, currentSort := sortType,
              currentPage := 1 } : RefState).deref
      = { s.deref with filteredProducts := arr, currentSort := sortType, currentPage := 1 } := by
  obtain ⟨_, hf, hne⟩ := hsep
  simp only [RefState.deref]
  rw [readArray_set_same _ _ _ hf, readArray_set_other _ _ _ _ (Ne.symm hne)]

/-- The function `applySortingRef` acts on the contents as `applySorting` does, keeps the two
arrays apart, and leaves the array of `allProducts` as it was. -/
theorem applySortingRef_refines (h : Host) (s : RefState) (sortType : Option String)
    (hsep : s.separate) :
    (applySortingRef h s sortType).deref = applySorting h s.deref sortType ∧
    (applySortingRef h s sortType).separate ∧
    (applySortingRef h s sortType).allProducts = s.allProducts := by
  refine ⟨?_, ?_, rfl⟩
  · unfold applySortingRef applySorting
    simp only
    split_ifs
    · exact deref_set_filtered s hsep _ _
    · exact deref_set_filtered s hsep _ _
    · exact deref_set_filtered s hsep _ _
    · exact deref_set_filtered s hsep _ _
    · rfl
  · obtain ⟨ha, hf, hne⟩ := hsep
    unfold applySortingRef
    simp only
    split_ifs <;> simp only [RefState.separate, List.length_set] <;> exact ⟨ha, hf, hne⟩

/-- The function `handleSearchRef` acts on the contents as `handleSearch` does, keeps the two
arrays apart, and leaves the reference in `allProducts` as it was. -/
theorem handleSearchRef_refines (h : Host) (s : RefState) (input : String)
    (hsep : s.separate) :
    (handleSearchRef h s input).deref = handleSearch h s.deref input ∧
    (handleSearchRef h s input).separate ∧
    (handleSearchRef h s input).allProducts = s.allProducts := by
  obtain ⟨ha, hf, hne⟩ := hsep
  have hsep1 : ∀ created : List Product,
      ({ s with heap := s.heap ++ [created], filteredProducts := s.heap.length }
        : RefState).separate := by
    intro created
    simp only [RefState.separate, List.length_append, List.length_singleton]
    omega
  have hderef1 : ∀ created : List Product,
      ({ s with heap := s.heap ++ [created], filteredProducts := s.heap.length }
        : RefState).deref = { s.deref with filteredProducts := created } := by
    intro created
    simp only [RefState.deref]
    rw [readArray_append_old _ _ _ ha, readArray_append_new]
  have hleft : handleSearchRef h s input
      = { (if truthy s.currentSort = true then
            applySortingRef h
              { s with
                heap := s.heap ++ [if jsTrim (h.toLowerCase input) = ""
                  then readArray s.heap s.allProducts
                  else (readArray s.heap s.allProducts).filter (fun product =>
                    includes (h.toLowerCase product.title) (jsTrim (h.toLowerCase input)))]
                filteredProducts := s.heap.length }
              s.currentSort
          else
            { s with
              heap := s.heap ++ [if jsTrim (h.toLowerCase input) = ""
                then readArray s.heap s.allProducts
                else (readArray s.heap s.allProducts).filter (fun product =>
                  includes (h.toLowerCase product.title) (jsTrim (h.toLowerCase input)))]
              filteredProducts := s.heap.length }) with
          currentPage := 1 } := rfl
  have hright : handleSearch h s.deref input
      = { (if truthy s.currentSort = true then
            applySorting h
              { s.deref with
                filteredProducts := if jsTrim (h.toLowerCase input) = ""
                  then readArray s.heap s.allProducts
                  else (readArray s.heap s.allProducts).filter (fun product =>
                    includes (h.toLowerCase product.title) (jsTrim (h.toLowerCase input))) }
              s.currentSort
          else
            { s.deref with
              filteredProducts := if jsTrim (h.toLowerCase input) = ""
                then readArray s.heap s.allProducts
                else (readArray s.heap s.allProducts).filter (fun product =>
                  includes (h.toLowerCase product.title) (jsTrim (h.toLowerCase input))) }) with
          currentPage := 1 } := rfl
  rw [hleft, hright]
  generalize (if jsTrim (h.toLowerCase input) = "" then readArray s.heap s.allProducts
    else (readArray s.heap s.allProducts).filter (fun product =>
      includes (h.toLowerCase product.title) (jsTrim (h.toLowerCase input)))) = created
  by_cases htruthy : truthy s.currentSort = true
  · rw [if_pos htruthy, if_pos htruthy]
    obtain ⟨hd, hs, hall⟩ := applySortingRef_refines h
      { s with heap := s.heap ++ [created], filteredProducts := s.heap.length } s.currentSort
      (hsep1 created)
    refine ⟨?_, hs, hall⟩
    rw [hderef1 created] at hd
    exact congrArg (fun t : State => { t with currentPage := 1 }) hd
  · rw [if_neg htruthy, if_neg htruthy]
    refine ⟨?_, hsep1 created, rfl⟩
    exact congrArg (fun t : State => { t with currentPage := 1 }) (hderef1 created)

/-- The function `goToNextPageRef` acts on the contents as `goToNextPage` does and changes
neither the heap nor the references. -/
theorem goToNextPageRef_refines (s : RefState) :
    (goToNextPageRef s).deref = goToNextPage s.deref ∧
    (goToNextPageRef s).heap = s.heap ∧
    (goToNextPageRef s).allProducts = s.allProducts ∧
    (goToNextPageRef s).filteredProducts = s.filteredProducts := by
  have hcond : (mathCeilDiv (readArray s.heap s.filteredProducts).length s.pageSize).gtInt
      s.currentPage = (totalPages s.deref).gtInt s.deref.currentPage := rfl
  unfold goToNextPageRef goToNextPage
  rw [hcond]
  split_ifs <;> exact ⟨rfl, rfl, rfl, rfl⟩

/-- The function `goToPrevPageRef` acts on the contents as `goToPrevPage` does and changes
neither the heap nor the references. -/
theorem goToPrevPageRef_refines (s : RefState) :
    (goToPrevPageRef s).deref = goToPrevPage s.deref ∧
    (goToPrevPageRef s).heap = s.heap ∧
    (goToPrevPageRef s).allProducts = s.allProducts ∧
    (goToPrevPageRef s).filteredProducts = s.filteredProducts := by
  unfold goToPrevPageRef goToPrevPage
  by_cases hgt : s.currentPage > 1
  · have hgt2 : s.deref.currentPage > 1 := hgt
    rw [if_pos hgt, if_pos hgt2]
    exact ⟨rfl, rfl, rfl, rfl⟩
  · have hgt2 : ¬ s.deref.currentPage > 1 := hgt
    rw [if_neg hgt, if_neg hgt2]
    exact ⟨rfl, rfl, rfl, rfl⟩

/-- The function `getAllProductsRef` acts on the contents as `getAllProducts` does and leaves
the two variables referring to two different arrays. -/
theorem getAllProductsRef_refines (s : RefState) (outcome : FetchOutcome) (hsep : s.separate) :
    (getAllProductsRef s outcome).deref = (getAllProducts s.deref outcome).state ∧
    (getAllProductsRef s outcome).separate := by
  cases outcome with
  | ok data =>
    constructor
    · show ({ s with heap := s.heap ++ [data, data], allProducts := s.heap.length,
                     filteredProducts := s.heap.length + 1 } : RefState).deref
        = { s.deref with allProducts := data, filteredProducts := data }
      simp only [RefState.deref]
      rw [readArray_append_new, readArray_append_second]
    · show ({ s with heap := s.heap ++ [data, data], allProducts := s.heap.length,
                     filteredProducts := s.heap.length + 1 } : RefState).separate
      simp only [RefState.separate, List.length_append, List.length_cons, List.length_nil]
      omega
  | networkError m => exact ⟨rfl, hsep⟩
  | httpError m => exact ⟨rfl, hsep⟩
  | decodeError m => exact ⟨rfl, hsep⟩

/-- One event acts on the contents as in the value-level model and keeps the two arrays
apart. -/
theorem stepRef_refines (h : Host) (s : RefState) (e : Event) (hsep : s.separate) :
    (stepRef h s e).deref = step h s.deref e ∧ (stepRef h s e).separate := by
  cases e with
  | load outcome => exact getAllProductsRef_refines s outcome hsep
  | search input =>
    exact ⟨(handleSearchRef_refines h s input hsep).1, (handleSearchRef_refines h s input hsep).2.1⟩
  | sort sortType =>
    exact ⟨(applySortingRef_refines h s sortType hsep).1,
      (applySortingRef_refines h s sortType hsep).2.1⟩
  | nextPage =>
    obtain ⟨hd, hh, ha, hf⟩ := goToNextPageRef_refines s
    refine ⟨hd, ?_⟩
    show (goToNextPageRef s).separate
    simp only [RefState.separate, hh, ha, hf]
    exact hsep
  | prevPage =>
    obtain ⟨hd, hh, ha, hf⟩ := goToPrevPageRef_refines s
    refine ⟨hd, ?_⟩
    show (goToPrevPageRef s).separate
    simp only [RefState.separate, hh, ha, hf]
    exact hsep
  | resize n => exact ⟨rfl, hsep⟩

/-- Every run from the initial state acts on the contents as in the value-level model, and in
every state it reaches the two variables refer to two different arrays. -/
theorem runRef_refines (h : Host) (events : List Event) :
    (runRef h initialRefState events).deref = run h initialState events ∧
    (runRef h initialRefState events).separate := by
  induction events using List.reverseRecOn with
  | nil =>
    refine ⟨rfl, ?_⟩
    show initialRefState.separate
    decide
  | append_singleton es e ih =>
    have hr : runRef h initialRefState (es ++ [e])
        = stepRef h (runRef h initialRefState es) e := by
      simp [runRef, List.foldl_append]
    rw [hr, run_append_one, ← ih.1]
    exact stepRef_refines h _ e ih.2

/-- Aliasing matters in this model: in a state whose two variables refer to one array, sorting
changes what `allProducts` reads. -/
theorem applySortingRef_aliased :
    readArray aliasedRefState.heap aliasedRefState.allProducts
      = [mkProduct 1 "b" 2, mkProduct 2 "a" 1] ∧
    readArray (applySortingRef sampleHost aliasedRefState (some "priceAsc")).heap
        (applySortingRef sampleHost aliasedRefState (some "priceAsc")).allProducts
      = [mkProduct 2 "a" 1, mkProduct 1 "b" 2] := by
  decide

/-- C12: `allProducts` is never changed by the view operations.  In every state the page can
reach, `allProducts` and `filteredProducts` refer to two different arrays; and in every such
state, after `handleSearch`, `applySorting` (any key), `goToNextPage`, `goToPrevPage` or
`changePageSize`, the variable `allProducts` holds the same reference and the array it refers
to has the same elements in the same order: the in-place sort only writes the array of
`filteredProducts`. -/
theorem allProducts_array_unchanged (h : Host) :
    (∀ events : List Event, (runRef h initialRefState events).separate) ∧
    (∀ s : RefState, s.separate →
      (∀ input : String,
        (handleSearchRef h s input).allProducts = s.allProducts ∧
        readArray (handleSearchRef h s input).heap s.allProducts
          = readArray s.heap s.allProducts) ∧
      (∀ sortType : Option String,
        (applySortingRef h s sortType).allProducts = s.allProducts ∧
        readArray (applySortingRef h s sortType).heap s.allProducts
          = readArray s.heap s.allProducts) ∧
      ((goToNextPageRef s).allProducts = s.allProducts ∧
        readArray (goToNextPageRef s).heap s.allProducts = readArray s.heap s.allProducts) ∧
      ((goToPrevPageRef s).allProducts = s.allProducts ∧
        readArray (goToPrevPageRef s).heap s.allProducts = readArray s.heap s.allProducts) ∧
      (∀ selected : Int,
        (changePageSizeRef s selected).allProducts = s.allProducts ∧
        readArray (changePageSizeRef s selected).heap s.allProducts
          = readArray s.heap s.allProducts)) := by
  refine ⟨fun events => (runRef_refines h events).2, fun s hsep => ⟨?_, ?_, ?_, ?_, ?_⟩⟩
  · intro input
    obtain ⟨hd, _, hall⟩ := handleSearchRef_refines h s input hsep
    refine ⟨hall, ?_⟩
    have hv := congrArg State.allProducts hd
    rw [(handleSearch_frame h s.deref input).1] at hv
    show readArray (handleSearchRef h s input).heap s.allProducts = s.deref.allProducts
    rw [← hv, ← hall]
    rfl
  · intro sortType
    obtain ⟨hd, _, hall⟩ := applySortingRef_refines h s sortType hsep
    refine ⟨hall, ?_⟩
    have hv := congrArg State.allProducts hd
    show readArray (applySortingRef h s sortType).heap s.allProducts = s.deref.allProducts
    rw [show (applySorting h s.deref sortType).allProducts = s.deref.allProducts from rfl] at hv
    rw [← hv, ← hall]
    rfl
  · obtain ⟨_, hh, ha, _⟩ := goToNextPageRef_refines s
    exact ⟨ha, by rw [hh]⟩
  · obtain ⟨_, hh, ha, _⟩ := goToPrevPageRef_refines s
    exact ⟨ha, by rw [hh]⟩
  · intro selected
    exact ⟨rfl, rfl⟩

/-- Instance of `allProducts_array_unchanged`: after loading three fruits, sorting and searching,
a price sort rearranges the array of `filteredProducts` and leaves the array of `allProducts`
in load order. -/
theorem allProducts_array_unchanged_witness :
    (runRef sampleHost initialRefState fruitEvents).separate ∧
    readArray (applySortingRef sampleHost (runRef sampleHost initialRefState fruitEvents)
        (some "priceAsc")).heap (runRef sampleHost initialRefState fruitEvents).allProducts
      = readArray (runRef sampleHost initialRefState fruitEvents).heap
          (runRef sampleHost initialRefState fruitEvents).allProducts ∧
    readArray (runRef sampleHost initialRefState fruitEvents).heap
        (runRef sampleHost initialRefState fruitEvents).allProducts
      = [mkProduct 1 "pear" 5, mkProduct 2 "fig" 3, mkProduct 3 "apple" 5] ∧
    readArray (applySortingRef sampleHost (runRef sampleHost initialRefState fruitEvents)
        (some "priceAsc")).heap
        (applySortingRef sampleHost (runRef sampleHost initialRefState fruitEvents)
          (some "priceAsc")).filteredProducts
      = [mkProduct 1 "pear" 5, mkProduct 3 "apple" 5] :=
  ⟨by decide,
   (((allProducts_array_unchanged sampleHost).2
      (runRef sampleHost initialRefState fruitEvents) (by decide)).2.1 (some "priceAsc")).2,
   by decide, by decide⟩

end ProductManager
